import Mathlib

/-!
Verification of the schema-derivation-and-validation engine of
`src/data/schema_checks.py` (NHTSA-ODI-Complaint-Analytics).

The Python module is shallowly embedded: pandas series become lists of
optional strings (`none` = missing value), dataframes become ordered
association lists of named series, and the report builder becomes a pure
function into `Except` (the Python code can only raise where a dictionary
lookup could fail; every such lookup is modelled by an `Except.error`).
String operations are implemented over the character lists of strings so
that every definition evaluates by kernel reduction.
-/

namespace SchemaChecks

/-! ### Character and string helpers -/

/-- ASCII digit test, the `\d` character class of the source's regexes. -/
def isAsciiDigit (c : Char) : Bool := decide ('0' ≤ c) && decide (c ≤ '9')

/-- Whitespace, the `\s` character class and `str.strip` of the source. -/
def isSpaceChar (c : Char) : Bool := decide (c = ' ') || (decide (9 ≤ c.toNat) && decide (c.toNat ≤ 13))

/-- Uppercase ASCII letter, the `[A-Z]` class. -/
def isUpperChar (c : Char) : Bool := decide ('A' ≤ c) && decide (c ≤ 'Z')

/-- The `[A-Z0-9_]` class of `FIELD_ROW_PATTERN`. -/
def isUpperSnakeChar (c : Char) : Bool := isUpperChar c || isAsciiDigit c || decide (c = '_')

/-- The `[A-Z0-9]` class of `CODE_LINE_PATTERN`. -/
def isCodeChar (c : Char) : Bool := isUpperChar c || isAsciiDigit c

/-- The `[A-Z0-9,\s/]` class of `BRACKET_CODES_PATTERN`. -/
def isBracketCodeChar (c : Char) : Bool :=
  isCodeChar c || decide (c = ',') || isSpaceChar c || decide (c = '/')

/-- Lowercase ASCII letter or digit, the `[a-z0-9]` class of `_normalize_identifier`. -/
def isLowerAlnum (c : Char) : Bool :=
  (decide ('a' ≤ c) && decide (c ≤ 'z')) || isAsciiDigit c

/-- Python `str.strip()` on a character list. -/
def charTrim (l : List Char) : List Char :=
  ((l.dropWhile isSpaceChar).reverse.dropWhile isSpaceChar).reverse

/-- Python `str.strip()`. -/
def strip (s : String) : String := String.mk (charTrim s.data)

/-- Python `str.lower()` (ASCII case mapping). -/
def lowerStr (s : String) : String := String.mk (s.data.map Char.toLower)

/-- Python `str.upper()` (ASCII case mapping). -/
def upperStr (s : String) : String := String.mk (s.data.map Char.toUpper)

/-- Value of a string of decimal digits. -/
def natOfDigits (l : List Char) : Nat :=
  l.foldl (fun n c => 10 * n + (c.toNat - 48)) 0

/-- Lexicographic comparison by code point, Python `<` on strings. -/
def lexLt : List Char → List Char → Bool
  | [], [] => false
  | [], _ :: _ => true
  | _ :: _, [] => false
  | a :: as, b :: bs => if a < b then true else if b < a then false else lexLt as bs

/-- Python `<` on strings (code-point lexicographic order). -/
def strLt (a b : String) : Bool := lexLt a.data b.data

/-- Insert into a strictly `strLt`-sorted list, dropping duplicates. -/
def insertUniq (x : String) : List String → List String
  | [] => [x]
  | y :: ys => if strLt x y then x :: y :: ys else if x = y then y :: ys else y :: insertUniq x ys

/-- Python `sorted(set(l))`: the distinct members of `l` in ascending order. -/
def sortedUniq (l : List String) : List String := l.foldr insertUniq []

/-- Python `needle in haystack` (contiguous substring test). -/
def containsSub (haystack needle : String) : Bool := decide (needle.data <:+: haystack.data)

/-! ### `_normalize_identifier` -/

/-- The regex substitution `re.sub(r"[^a-z0-9]+", "_", text)`: each maximal run
of characters outside `[a-z0-9]` collapses to a single underscore.  `sep` is
true while the previous character was part of such a run. -/
def collapseSeps (sep : Bool) : List Char → List Char
  | [] => []
  | c :: cs =>
    if isLowerAlnum c then c :: collapseSeps false cs
    else if sep then collapseSeps true cs
    else '_' :: collapseSeps true cs

/-- Python `str.strip("_")` on a character list. -/
def trimUnderscoreEnds (l : List Char) : List Char :=
  ((l.dropWhile (fun c => c = '_')).reverse.dropWhile (fun c => c = '_')).reverse

/-- Embedding of `_normalize_identifier` (schema_checks.py lines 47-50). -/
def normalizeIdentifier (value : String) : String :=
  let text := lowerStr (strip value)
  let collapsed := collapseSeps false text.data
  let trimmed := trimUnderscoreEnds collapsed
  if trimmed.isEmpty then "column" else String.mk trimmed

/-! ### `_preview_list` and the `{n:,}` number format -/

/-- Grouping step of Python's `{n:,}` format: the input is the reversed digit
list, commas go after every third digit. -/
def commaRev : List Char → List Char
  | [] => []
  | [a] => [a]
  | [a, b] => [a, b]
  | [a, b, c] => [a, b, c]
  | a :: b :: c :: rest => a :: b :: c :: ',' :: commaRev rest

/-- Python `f"{n:,}"` for a nonnegative count. -/
def commaFormat (n : Nat) : String := String.mk (commaRev (Nat.repr n).data.reverse).reverse

/-- Embedding of `_preview_list` (schema_checks.py lines 53-59). -/
def previewList (values : List String) (maxItems : Nat := 8) : String :=
  if values.isEmpty then "[]"
  else if values.length ≤ maxItems then "[" ++ String.intercalate ", " values ++ "]"
  else
    let shown := String.intercalate ", " (values.take maxItems)
    s!"[{shown}, ... +{values.length - maxItems} more]"

/-! ### Series and `_clean_text_series` -/

/-- One pandas column.  `isDatetime` models `is_datetime64_any_dtype`; the
values of a column are raw optional strings (`none` is a missing value). -/
structure Series where
  isDatetime : Bool
  values : List (Option String)
deriving Repr, DecidableEq

/-- Embedding of `_clean_text_series` on one value: strip, then turn the empty
string into a missing value. -/
def cleanValue (v : Option String) : Option String :=
  v.bind fun s => let t := strip s; if t = "" then none else some t

/-- Embedding of `_clean_text_series` (schema_checks.py lines 62-64). -/
def cleanTextSeries (values : List (Option String)) : List (Option String) :=
  values.map cleanValue

/-- Count of non-missing entries (`series.notna().sum()`). -/
def countSome (values : List (Option String)) : Nat :=
  (values.filter fun v => v.isSome).length

/-! ### `_validate_date_field` -/

/-- Result record of `_validate_date_field`. -/
structure DateResult where
  checked : Bool
  nonNullCount : Nat
  placeholderZeroCount : Nat
  invalidDateCount : Nat
  invalidExamples : List String
deriving Repr, DecidableEq

/-- The all-zero placeholder forms of line 292: `["0", "00000000", "0000-00-00"]`,
compared after upper-casing. -/
def isPlaceholderZero (t : String) : Bool :=
  ["0", "00000000", "0000-00-00"].contains (upperStr t)

/-- `str.fullmatch(r"\d{8}")`. -/
def isEightDigits (t : String) : Bool :=
  decide (t.data.length = 8) && t.data.all isAsciiDigit

/-- Gregorian leap-year rule, as used by `pd.to_datetime`. -/
def isLeapYear (y : Nat) : Bool :=
  (decide (y % 4 = 0) && decide (y % 100 ≠ 0)) || decide (y % 400 = 0)

/-- Days of month `m` in year `y`. -/
def daysInMonth (y m : Nat) : Nat :=
  if m = 2 then (if isLeapYear y then 29 else 28)
  else if [4, 6, 9, 11].contains m then 30
  else 31

/-- Date-triple comparison `(y1, m1, d1) ≤ (y2, m2, d2)`. -/
def dateTripleLe (y1 m1 d1 y2 m2 d2 : Nat) : Bool :=
  decide (y1 < y2) ||
    (decide (y1 = y2) &&
      (decide (m1 < m2) || (decide (m1 = m2) && decide (d1 ≤ d2))))

/-- The dates representable as nanosecond `pd.Timestamp`s at midnight, which
is what `%Y%m%d` parsing produces: `Timestamp.min` is
1677-09-21 00:12:43.145224193 and `Timestamp.max` is
2262-04-11 23:47:16.854775807, so midnight fits exactly for 1677-09-22
through 2262-04-11; everything outside is coerced to `NaT`. -/
def withinTimestampBounds (y m d : Nat) : Bool :=
  dateTripleLe 1677 9 22 y m d && dateTripleLe y m d 2262 4 11

/-- Whether `pd.to_datetime(t, format="%Y%m%d", errors="coerce")` yields a
date for an eight-digit string: the month and day parts form a real Gregorian
calendar date AND the resulting midnight timestamp lies inside the nanosecond
`Timestamp` range (out-of-range dates such as `"13000101"` coerce to `NaT`,
per pandas' documentation of this exact call). -/
def isValidYYYYMMDD (t : String) : Bool :=
  isEightDigits t &&
    (let y := natOfDigits (t.data.take 4)
     let m := natOfDigits ((t.data.drop 4).take 2)
     let d := natOfDigits (t.data.drop 6)
     decide (1 ≤ m) && decide (m ≤ 12) && decide (1 ≤ d) && decide (d ≤ daysInMonth y m) &&
       withinTimestampBounds y m d)

/-- Modelled from the spec's words, for comparison with `isValidYYYYMMDD`:
"invalid unless they are exactly 8 digits AND parse as a real calendar date
under the YYYYMMDD convention" — a plain Gregorian calendar test with no
engine-specific range bound. -/
def isRealCalendarYYYYMMDD (t : String) : Bool :=
  isEightDigits t &&
    (let y := natOfDigits (t.data.take 4)
     let m := natOfDigits ((t.data.drop 4).take 2)
     let d := natOfDigits (t.data.drop 6)
     decide (1 ≤ m) && decide (m ≤ 12) && decide (1 ≤ d) && decide (d ≤ daysInMonth y m))

/-- Whether a cleaned value enters the date check (non-null and not a zero
placeholder), line 295. -/
def dateCheckable (v : Option String) : Bool :=
  match v with
  | none => false
  | some t => !(isPlaceholderZero t)

/-- Whether a cleaned value is counted invalid by line 301:
`check_mask & (~digits_mask | parseable.isna())`. -/
def dateInvalid (v : Option String) : Bool :=
  match v with
  | none => false
  | some t => !(isPlaceholderZero t) && !(isValidYYYYMMDD t)

/-- Embedding of `_validate_date_field` (schema_checks.py lines 271-308). -/
def validateDateField (series : Series) : DateResult :=
  if series.isDatetime then
    { checked := true, nonNullCount := countSome series.values,
      placeholderZeroCount := 0, invalidDateCount := 0, invalidExamples := [] }
  else
    let text := cleanTextSeries series.values
    let nonNull := countSome text
    if nonNull = 0 then
      { checked := true, nonNullCount := 0,
        placeholderZeroCount := 0, invalidDateCount := 0, invalidExamples := [] }
    else
      let zeroCount := (text.filter fun v => (v.map isPlaceholderZero).getD false).length
      if (text.filter fun v => dateCheckable v).length = 0 then
        { checked := true, nonNullCount := nonNull,
          placeholderZeroCount := zeroCount, invalidDateCount := 0, invalidExamples := [] }
      else
        let invalidVals := (text.filter fun v => dateInvalid v).filterMap id
        { checked := true, nonNullCount := nonNull,
          placeholderZeroCount := zeroCount,
          invalidDateCount := invalidVals.length,
          invalidExamples := if invalidVals.length > 0 then (sortedUniq invalidVals).take 5 else [] }

/-! ### `_validate_numeric_field` -/

/-- Result record of `_validate_numeric_field`. -/
structure NumericResult where
  checked : Bool
  nonNullCount : Nat
  nonNumericCount : Nat
  nonIntegerCount : Nat
  digitsOverflowCount : Nat
  invalidExamples : List String
deriving Repr, DecidableEq

/-- Optional sign at the head of a numeric literal. -/
def parseSign : List Char → Int × List Char
  | '+' :: rest => (1, rest)
  | '-' :: rest => (-1, rest)
  | l => (1, l)

/-- Exact value of `pd.to_numeric` on a cleaned string, as a pair `(m, k)`
representing `m / 10 ^ k`.  Accepts an optional sign, a decimal mantissa with
at least one digit, and an optional integer exponent — the lexical numeric
grammar of the source. `none` models a parse failure (`NaN` after coercion). -/
def parseDecimal (t : String) : Option (Int × Nat) :=
  let (sign, rest) := parseSign t.data
  let intPart := rest.takeWhile isAsciiDigit
  let rest1 := rest.dropWhile isAsciiDigit
  let (fracPart, rest2) :=
    match rest1 with
    | '.' :: r => (r.takeWhile isAsciiDigit, r.dropWhile isAsciiDigit)
    | r => ([], r)
  if intPart.isEmpty && fracPart.isEmpty then none
  else
    let m : Int := sign * (natOfDigits (intPart ++ fracPart) : Int)
    let k := fracPart.length
    match rest2 with
    | [] => some (m, k)
    | e :: r3 =>
      if e = 'e' ∨ e = 'E' then
        let (esign, r4) := parseSign r3
        let expDigits := r4.takeWhile isAsciiDigit
        if expDigits.isEmpty ∨ ¬(r4.dropWhile isAsciiDigit).isEmpty then none
        else
          let ex := natOfDigits expDigits
          if esign = 1 then
            if k ≤ ex then some (m * (10 : Int) ^ (ex - k), 0) else some (m, k - ex)
          else some (m, k + ex)
      else none

/-- Whether the fractional part of `m / 10 ^ k` has magnitude below the `1e-9`
tolerance of line 334 (`(value % 1).abs() < 1e-9`; Python's `%` is
nonnegative here, so the absolute value is redundant). -/
def integralWithinTol (mk : Int × Nat) : Bool :=
  let n : Int := (10 : Int) ^ mk.2
  decide ((mk.1 % n) * 1000000000 < n)

/-- Count of digit characters, line 338: `str.replace(r"[^\d]", "") .str.len()`. -/
def digitCharCount (t : String) : Nat := (t.data.filter isAsciiDigit).length

/-- Whether a cleaned value is non-null and fails the numeric parse. -/
def numericNonNumeric (v : Option String) : Bool :=
  match v with
  | none => false
  | some t => (parseDecimal t).isNone

/-- Whether a cleaned value parses and its fractional magnitude is `≥ 1e-9`. -/
def numericNonIntegral (v : Option String) : Bool :=
  match v with
  | none => false
  | some t =>
    match parseDecimal t with
    | none => false
    | some mk => !(integralWithinTol mk)

/-- Whether a cleaned value parses and its digit-character count exceeds
`max_digits`. -/
def numericDigitsOverflow (maxDigits : Nat) (v : Option String) : Bool :=
  match v with
  | none => false
  | some t => (parseDecimal t).isSome && decide (digitCharCount t > maxDigits)

/-- Embedding of `_validate_numeric_field` (schema_checks.py lines 311-360). -/
def validateNumericField (series : Series) (maxDigits : Nat) : NumericResult :=
  let text := cleanTextSeries series.values
  let nonNull := countSome text
  if nonNull = 0 then
    { checked := true, nonNullCount := 0, nonNumericCount := 0,
      nonIntegerCount := 0, digitsOverflowCount := 0, invalidExamples := [] }
  else
    let nonNumeric := (text.filter fun v => numericNonNumeric v).length
    let nonInteger := (text.filter fun v => numericNonIntegral v).length
    let overflow := (text.filter fun v => numericDigitsOverflow maxDigits v).length
    let invalidVals :=
      (text.filter fun v => numericNonNumeric v || numericNonIntegral v).filterMap id
    { checked := true, nonNullCount := nonNull, nonNumericCount := nonNumeric,
      nonIntegerCount := nonInteger, digitsOverflowCount := overflow,
      invalidExamples :=
        if nonNumeric > 0 ∨ nonInteger > 0 then (sortedUniq invalidVals).take 5 else [] }

/-! ### `_validate_char_length` -/

/-- Result record of `_validate_char_length`. -/
structure CharLengthResult where
  checked : Bool
  nonNullCount : Nat
  tooLongCount : Nat
  maxObservedLength : Nat
deriving Repr, DecidableEq

/-- Embedding of `_validate_char_length` (schema_checks.py lines 363-387). -/
def validateCharLength (series : Series) (maxLength : Nat) (allowDatetime : Bool := false) :
    CharLengthResult :=
  if allowDatetime && series.isDatetime then
    { checked := false, nonNullCount := 0, tooLongCount := 0, maxObservedLength := 0 }
  else
    let text := cleanTextSeries series.values
    let lengths := text.filterMap fun v => v.map (fun t => t.data.length)
    if lengths.isEmpty then
      { checked := true, nonNullCount := 0, tooLongCount := 0, maxObservedLength := 0 }
    else
      { checked := true, nonNullCount := lengths.length,
        tooLongCount := (lengths.filter fun n => decide (n > maxLength)).length,
        maxObservedLength := lengths.foldr max 0 }

/-! ### `_validate_enum_field` -/

/-- Result record of `_validate_enum_field`. -/
structure EnumResult where
  checked : Bool
  nonNullCount : Nat
  invalidValueCount : Nat
  invalidExamples : List String
deriving Repr, DecidableEq

/-- Embedding of `_validate_enum_field` (schema_checks.py lines 390-419).  The
cleaned values are upper-cased and tested against the upper-cased allowed set;
note that the recorded examples are the upper-cased values. -/
def validateEnumField (series : Series) (allowedValues : List String) : EnumResult :=
  if allowedValues.isEmpty then
    { checked := false, nonNullCount := 0, invalidValueCount := 0, invalidExamples := [] }
  else
    let normalized := (cleanTextSeries series.values).map fun v => v.map upperStr
    let nonNull := countSome normalized
    if nonNull = 0 then
      { checked := true, nonNullCount := 0, invalidValueCount := 0, invalidExamples := [] }
    else
      let allowedSet := allowedValues.map upperStr
      let invalidVals :=
        (normalized.filterMap id).filter fun t => !(allowedSet.contains t)
      { checked := true, nonNullCount := nonNull,
        invalidValueCount := invalidVals.length,
        invalidExamples :=
          if invalidVals.length > 0 then (sortedUniq invalidVals).take 8 else [] }

/-! ### Schema document parsing -/

/-- Normalized field record (the dictionaries built at lines 164-176). -/
structure FieldSpec where
  index : Nat
  nameRaw : String
  name : String
  type : String
  size : Nat
  description : String
  isDate : Bool
  isYesNo : Bool
  allowedCodes : List String
deriving Repr, DecidableEq

/-- Field record under construction (the dictionaries built at lines 122-130). -/
structure RawField where
  index : Nat
  nameRaw : String
  name : String
  type : String
  size : Nat
  descriptionLines : List String
  allowedCodes : List String
deriving Repr, DecidableEq

/-- Match of `FIELD_ROW_PATTERN`
(`^\s*(\d+)\s+([A-Z0-9_]+)\s+([A-Z]+)\((\d+)\)\s*(.*)$`): index, raw name,
type, size, and the stripped trailing description.  The regex's character
classes are disjoint from their successors, so greedy matching without
backtracking is exact. -/
def parseFieldRow (line : String) : Option (Nat × String × String × Nat × String) :=
  let l0 := line.data.dropWhile isSpaceChar
  let digits := l0.takeWhile isAsciiDigit
  let l1 := l0.dropWhile isAsciiDigit
  if digits.isEmpty then none else
  let ws1 := l1.takeWhile isSpaceChar
  let l2 := l1.dropWhile isSpaceChar
  if ws1.isEmpty then none else
  let nameChars := l2.takeWhile isUpperSnakeChar
  let l3 := l2.dropWhile isUpperSnakeChar
  if nameChars.isEmpty then none else
  let ws2 := l3.takeWhile isSpaceChar
  let l4 := l3.dropWhile isSpaceChar
  if ws2.isEmpty then none else
  let tyChars := l4.takeWhile isUpperChar
  let l5 := l4.dropWhile isUpperChar
  if tyChars.isEmpty then none else
  match l5 with
  | '(' :: l6 =>
    let sizeChars := l6.takeWhile isAsciiDigit
    let l7 := l6.dropWhile isAsciiDigit
    if sizeChars.isEmpty then none else
    match l7 with
    | ')' :: l8 =>
      some (natOfDigits digits, String.mk nameChars, String.mk tyChars,
            natOfDigits sizeChars, strip (String.mk l8))
    | _ => none
  | _ => none

/-- Match of `CODE_LINE_PATTERN` (`^\s*([A-Z0-9]{1,10})\s*=`): the leading
code token of a line such as `V = Vehicle`.  The token is the maximal
`[A-Z0-9]` run (shorter prefixes are followed by another class character, so
backtracking cannot help), of length 1 to 10, followed by optional whitespace
and `=`. -/
def codeLineMatch (line : String) : Option String :=
  let l0 := line.data.dropWhile isSpaceChar
  let run := l0.takeWhile isCodeChar
  let l1 := l0.dropWhile isCodeChar
  if run.isEmpty ∨ decide (run.length > 10) then none
  else
    match l1.dropWhile isSpaceChar with
    | '=' :: _ => some (upperStr (String.mk run))
    | _ => none

/-- Scanner for `BRACKET_CODES_PATTERN`.  The state holds the class-character
run collected since the last unmatched `[`, or `none` outside a bracket.  The
character class contains neither `[` nor `]`, so this single pass is exactly
`re.finditer`'s scan with its restart-at-next-position rule. -/
def bracketScan : List Char → Option (List Char) → List (List Char)
  | [], _ => []
  | c :: rest, none =>
    if c = '[' then bracketScan rest (some []) else bracketScan rest none
  | c :: rest, some run =>
    if isBracketCodeChar c then bracketScan rest (some (run ++ [c]))
    else if c = ']' then
      (if run.isEmpty then bracketScan rest none else run :: bracketScan rest none)
    else if c = '[' then bracketScan rest (some [])
    else bracketScan rest none

/-- Matches of `BRACKET_CODES_PATTERN` (`\[([A-Z0-9,\s/]+)\]`): the contents
of each bracketed code list, scanning left to right. -/
def bracketGroups (l : List Char) : List (List Char) := bracketScan l none

/-- Python `group(1).split(",")` with strip and upper-casing of each item,
keeping the non-empty ones (lines 74-79). -/
def bracketItems (group : List Char) : List String :=
  ((String.mk group).splitOn ",").filterMap fun item =>
    let cleaned := upperStr (strip item)
    if cleaned = "" then none else some cleaned

/-- Embedding of `_extract_codes_from_line` (schema_checks.py lines 67-81). -/
def extractCodesFromLine (line : String) : List String :=
  (match codeLineMatch line with
   | some c => [c]
   | none => []) ++
  (bracketGroups (upperStr line).data).flatMap bracketItems

/-- Embedding of `_is_probably_blank_line` (schema_checks.py lines 84-86). -/
def isProbablyBlankLine (line : String) : Bool :=
  (charTrim line.data).all fun c => c = '=' || c = '-'

/-- Append a continuation line to the currently open (= last started) field. -/
def addContinuation (fields : List RawField) (text : String) : List RawField :=
  match fields.reverse with
  | [] => []
  | f :: before =>
    ({ f with descriptionLines := f.descriptionLines ++ [text],
              allowedCodes := f.allowedCodes ++ extractCodesFromLine text } :: before).reverse

/-- The line scan of `_parse_schema_doc` (schema_checks.py lines 103-147).
`inSection` is `in_field_section`; the open `current_field` is the last
element of the accumulator. -/
def scanDocLines : List String → Bool → List RawField → List RawField
  | [], _, acc => acc
  | line :: rest, inSection, acc =>
    if containsSub line "FIELDS:" then scanDocLines rest true acc
    else if !inSection then scanDocLines rest inSection acc
    else if isProbablyBlankLine line then scanDocLines rest inSection acc
    else
      match parseFieldRow line with
      | some (idx, nameRaw, ty, size, descLine) =>
        let newField : RawField :=
          { index := idx, nameRaw := nameRaw, name := normalizeIdentifier nameRaw,
            type := ty, size := size,
            descriptionLines := if descLine = "" then [] else [descLine],
            allowedCodes := if descLine = "" then [] else extractCodesFromLine descLine }
        scanDocLines rest inSection (acc ++ [newField])
      | none =>
        if acc.isEmpty then scanDocLines rest inSection acc
        else scanDocLines rest inSection (addContinuation acc (strip line))

/-! ### Per-schema configuration tables (schema_checks.py lines 22-41) -/

/-- `SCHEMA_OPTIONAL_COLUMNS.get(schema_name, set())`, with the set listed in
sorted order (as `sorted(optional_columns)` produces at line 191). -/
def schemaOptionalColumns (schemaName : String) : List String :=
  if schemaName = "recalls" then ["do_not_drive", "park_outside"] else []

/-- `SCHEMA_DATE_COLUMNS_OVERRIDES.get(schema_name, set())`. -/
def schemaDateColumnsOverrides (schemaName : String) : List String :=
  if schemaName = "complaints" then ["faildate", "datea", "ldate", "purch_dt", "manuf_dt"]
  else if schemaName = "recalls" then ["bgman", "endman", "odate", "rcdate", "datea"]
  else []

/-- `SCHEMA_ENUM_OVERRIDES[schema_name][field_name]`, already as
`sorted(set(...))` (line 260). -/
def schemaEnumOverride (schemaName fieldName : String) : Option (List String) :=
  if schemaName = "recalls" ∧ fieldName = "influenced_by" then some ["MFR", "ODI", "OVSC"]
  else none

/-- `SCHEMA_LENGTH_OVERRIDES.get(schema_name, {}).get(column_name)`. -/
def schemaLengthOverride (schemaName columnName : String) : Option Nat :=
  if schemaName = "recalls" ∧ columnName = "fmvss" then some 6 else none

/-- `ALLOWED_PIPELINE_EXTRA_COLUMNS`. -/
def allowedPipelineExtraColumns : List String := ["source_zip", "source_file"]

/-! ### `_parse_schema_doc` normalization and the SchemaSpec -/

/-- Normalization of one raw field (lines 153-176). -/
def normalizeRawField (schemaName : String) (f : RawField) : FieldSpec :=
  let descriptionText := strip (String.intercalate " " f.descriptionLines)
  let upperDesc := upperStr descriptionText
  { index := f.index, nameRaw := f.nameRaw, name := f.name, type := f.type, size := f.size,
    description := descriptionText,
    isDate := (schemaDateColumnsOverrides schemaName).contains f.name ||
      containsSub upperDesc "YYYYMMDD",
    isYesNo := containsSub upperDesc "'Y' OR 'N'" || containsSub upperDesc "Y/N",
    allowedCodes := sortedUniq (f.allowedCodes.filter fun c => c ≠ "") }

/-- The parsed schema (the dictionary returned at lines 184-192).  The derived
columns and the name-keyed field map are deterministic functions of the
fields, defined below. -/
structure SchemaSpec where
  schemaName : String
  docPath : String
  fields : List FieldSpec
deriving Repr, DecidableEq

/-- `expected_columns` (line 178). -/
def SchemaSpec.expectedColumns (spec : SchemaSpec) : List String :=
  spec.fields.map fun f => f.name

/-- `optional_columns` (line 191, `sorted(optional_columns)`). -/
def SchemaSpec.optionalColumns (spec : SchemaSpec) : List String :=
  schemaOptionalColumns spec.schemaName

/-- `required_columns` (lines 180-182). -/
def SchemaSpec.requiredColumns (spec : SchemaSpec) : List String :=
  spec.expectedColumns.filter fun n => !(schemaOptionalColumns spec.schemaName).contains n

/-- `field_map[name]` (line 188): a Python dict comprehension keeps the last
field with a given name. -/
def SchemaSpec.fieldLookup (spec : SchemaSpec) (name : String) : Option FieldSpec :=
  spec.fields.reverse.find? fun f => f.name = name

/-- Embedding of `_parse_schema_doc` (schema_checks.py lines 92-192) on the
split lines of the document text.  The absent-file failure (line 94) is a
collaborator concern outside this model; the zero-fields failure of line 150
is the `Except.error`. -/
def parseSchemaDoc (docPath : String) (docLines : List String) (schemaName : String) :
    Except String SchemaSpec :=
  let fields := scanDocLines docLines false []
  if fields.isEmpty then
    Except.error s!"No schema fields parsed from {docPath}"
  else
    Except.ok
      { schemaName := schemaName, docPath := docPath,
        fields := (List.insertionSort (fun a b => a.index ≤ b.index) fields).map
          (normalizeRawField schemaName) }

/-! ### Schema catalog and matcher -/

/-- Result of `_schema_catalog()` (lines 195-205): the parsed schemas and the
per-schema parse failures, keyed by schema name.  The catalog is an input of
the verification: the schema documents under `docs/` are data files outside
the repository's source tree. -/
structure CatalogInfo where
  schemas : List (String × SchemaSpec)
  errors : List (String × String)
deriving Repr, DecidableEq

/-- Python `catalog[name]` / `catalog.get(name)`. -/
def catalogLookup (catalog : List (String × SchemaSpec)) (name : String) : Option SchemaSpec :=
  (catalog.find? fun e => e.1 = name).map fun e => e.2

/-- Embedding of `get_schema_spec` (schema_checks.py lines 208-219): re-raise
the recorded parse failure, or fail with a lookup error for a name that is not
configured. -/
def getSchemaSpec (info : CatalogInfo) (name : String) : Except String SchemaSpec :=
  match info.errors.find? fun e => e.1 = name with
  | some e => Except.error s!"Schema '{name}' could not be parsed: {e.2}"
  | none =>
    match catalogLookup info.schemas name with
    | some spec => Except.ok spec
    | none => Except.error s!"Schema '{name}' not found"

/-- Embedding of `get_schema_columns` (lines 222-224). -/
def getSchemaColumns (info : CatalogInfo) (name : String) : Except String (List String) :=
  (getSchemaSpec info name).map fun spec => spec.expectedColumns

/-- `len(column_set & expected_set)`: the number of distinct observed column
names that the schema also expects. -/
def schemaOverlap (columns : List String) (spec : SchemaSpec) : Nat :=
  (columns.dedup.filter fun c => spec.expectedColumns.contains c).length

/-- `overlap / max(len(expected_set), 1)` (line 238). -/
def schemaScore (columns : List String) (spec : SchemaSpec) : ℚ :=
  (schemaOverlap columns spec : ℚ) / ((max spec.expectedColumns.dedup.length 1 : Nat) : ℚ)

/-- One iteration of the detection loop (lines 235-242): keep the strictly
better score, so earlier catalog entries win ties. -/
def detectStep (columns : List String) (acc : Option String × ℚ × Nat)
    (e : String × SchemaSpec) : Option String × ℚ × Nat :=
  let score := schemaScore columns e.2
  if score > acc.2.1 then (some e.1, score, schemaOverlap columns e.2) else acc

/-- Embedding of `_detect_schema_name` (schema_checks.py lines 227-247):
fold over the catalog keeping the strictly best score, then reject a best
score below 0.35. -/
def detectSchemaName (catalog : List (String × SchemaSpec)) (columns : List String) :
    Option String × ℚ × Nat :=
  let best := catalog.foldl (detectStep columns) (none, 0, 0)
  if best.2.1 < 35 / 100 then (none, best.2.1, best.2.2) else best

/-! ### DataFrames and schema-independent diagnostics -/

/-- An ordered mapping of column name to series: the dataset input of
`collect_schema_report`. -/
structure DataFrame where
  cols : List (String × Series)
deriving Repr, DecidableEq

/-- `df.columns.tolist()`. -/
def DataFrame.columnNames (df : DataFrame) : List String := df.cols.map fun c => c.1

/-- `len(df)`: the common length of the columns (pandas frames are
rectangular). -/
def DataFrame.nRows (df : DataFrame) : Nat :=
  (df.cols.head?.map fun c => c.2.values.length).getD 0

/-- Row `i` of the frame, for the duplicate-row check. -/
def DataFrame.rowAt (df : DataFrame) (i : Nat) : List (Option String) :=
  df.cols.map fun c => ((c.2.values.drop i).head?).getD none

/-- All rows of the frame. -/
def DataFrame.rows (df : DataFrame) : List (List (Option String)) :=
  (List.range df.nRows).map df.rowAt

/-- Count of entries equal to an earlier entry: `duplicated().sum()` (pandas
treats missing values as equal to each other, as does `Option` equality). -/
def dupCountAux {α : Type} [DecidableEq α] (seen : List α) : List α → Nat
  | [] => 0
  | x :: xs => (if seen.contains x then 1 else 0) + dupCountAux (x :: seen) xs

/-- `duplicated().sum()`. -/
def dupCount {α : Type} [DecidableEq α] (l : List α) : Nat := dupCountAux [] l

/-- `COMMON_ODI_COMPLAINT_ID_COLUMNS` (src/config/constants.py). -/
def commonOdiComplaintIdColumns : List String :=
  ["odi_number", "odino", "cmplid", "complaint_number"]

/-- `MODEL_YEAR_COLUMN_CANDIDATES` (src/config/constants.py). -/
def modelYearColumnCandidates : List String := ["model_year", "modelyear", "veh_year", "year"]

/-- Embedding of `_find_id_column` (schema_checks.py lines 422-428). -/
def findIdColumn (df : DataFrame) : Option String :=
  match commonOdiComplaintIdColumns.find? (fun c => df.columnNames.contains c) with
  | some c => some c
  | none => if df.columnNames.contains "record_id" then some "record_id" else none

/-- Embedding of `_find_model_year_column` (schema_checks.py lines 431-437). -/
def findModelYearColumn (df : DataFrame) : Option String :=
  if df.columnNames.contains "yeartxt" then some "yeartxt"
  else modelYearColumnCandidates.find? fun c => df.columnNames.contains c

/-- `pd.to_numeric(value, errors="coerce")` on a raw entry (the numeric parser
tolerates surrounding whitespace). -/
def toNumericValue (v : Option String) : Option (Int × Nat) :=
  v.bind fun s => parseDecimal (strip s)

/-- Whether the exact value `m / 10 ^ k` equals the natural number `n`. -/
def valueEqNat (mk : Int × Nat) (n : Nat) : Bool :=
  decide (mk.1 = (n : Int) * (10 : Int) ^ mk.2)

/-- Whether `lo ≤ m / 10 ^ k ≤ hi` (the inclusive `between` of line 671). -/
def valueBetween (mk : Int × Nat) (lo hi : Nat) : Bool :=
  decide ((lo : Int) * (10 : Int) ^ mk.2 ≤ mk.1) && decide (mk.1 ≤ (hi : Int) * (10 : Int) ^ mk.2)

/-- Line 671: a parsed model-year value is out of range unless it equals the
9999 sentinel or lies in [1900, 2100]. -/
def modelYearOutOfRange (v : Option String) : Bool :=
  match toNumericValue v with
  | none => false
  | some mk => !(valueEqNat mk 9999 || valueBetween mk 1900 2100)

/-! ### Report data model -/

/-- `report["field_issue_counts"]` (lines 465-473). -/
structure FieldIssueCounts where
  dateInvalidTotal : Nat := 0
  dateZeroPlaceholderTotal : Nat := 0
  numericNonNumericTotal : Nat := 0
  numericNonIntegerTotal : Nat := 0
  numericDigitsOverflowTotal : Nat := 0
  charLengthOverflowTotal : Nat := 0
  enumInvalidTotal : Nat := 0
deriving Repr, DecidableEq

/-- One entry of `report["field_checks"]` (the `column_report` dict). -/
structure ColumnReport where
  type : String
  size : Nat
  numeric : Option NumericResult := none
  date : Option DateResult := none
  charLength : Option CharLengthResult := none
  enum : Option EnumResult := none
deriving Repr, DecidableEq

/-- The conformance report (lines 444-476). -/
structure Report where
  datasetName : String
  rows : Nat
  columns : Nat
  duplicateRows : Option Nat
  idColumnFound : Option String
  idNullCount : Option Nat
  idDuplicateCount : Option Nat
  modelYearColumnFound : Option String
  modelYearOutOfRangeCount : Option Nat
  schemaName : Option String
  schemaDocPath : Option String
  schemaMatchScore : ℚ
  expectedColumns : Option Nat
  presentExpectedColumns : Option Nat
  missingColumns : List String
  missingOptionalColumns : List String
  extraColumns : List String
  unexpectedExtraColumns : List String
  columnOrderMatchesExpected : Option Bool
  fieldChecks : List (String × ColumnReport)
  fieldIssueCounts : FieldIssueCounts
  warnings : List String
  errors : List String
deriving Repr

/-! ### User-facing messages (the f-strings of lines 480-676) -/

/-- Line 482. -/
def catalogErrWarnMsg (schemaName message : String) : String :=
  s!"Could not parse schema doc for {schemaName}: {message}"

/-- Line 546. -/
def missingRequiredMsg (schemaName : String) (missing : List String) : String :=
  s!"Missing required columns for {schemaName}: {previewList missing}"

/-- Line 551. -/
def unexpectedExtraMsg (cols : List String) : String :=
  s!"Unexpected extra columns: {previewList cols}"

/-- Line 556. -/
def orderMsg : String :=
  "Expected columns are present but column order differs from schema doc"

/-- Line 582. -/
def nonNumericErrMsg (name : String) (count : Nat) : String :=
  s!"{name}: {commaFormat count} non-numeric values"

/-- Line 586. -/
def nonIntegerWarnMsg (name : String) (count : Nat) : String :=
  s!"{name}: {commaFormat count} non-integer numeric values"

/-- Line 590. -/
def digitsOverflowWarnMsg (name : String) (count size : Nat) : String :=
  s!"{name}: {commaFormat count} values exceed NUMBER({size}) digit length"

/-- Line 605. -/
def invalidDateErrMsg (name : String) (count : Nat) : String :=
  s!"{name}: {commaFormat count} invalid YYYYMMDD date values"

/-- Line 609. -/
def placeholderWarnMsg (name : String) (count : Nat) : String :=
  s!"{name}: {commaFormat count} placeholder zero date values"

/-- Line 629. -/
def charLegacyWarnMsg (name : String) (count size allowedMax : Nat) : String :=
  s!"{name}: {commaFormat count} values exceed doc CHAR({size}) length (allowed legacy max {allowedMax})"

/-- Line 633. -/
def charErrMsg (name : String) (count allowedMax : Nat) : String :=
  s!"{name}: {commaFormat count} values exceed CHAR({allowedMax})"

/-- Line 645. -/
def enumWarnMsg (name : String) (count : Nat) : String :=
  s!"{name}: {commaFormat count} values outside documented codes"

/-- Line 653. -/
def schemaUnavailableWarnMsg (name : String) : String :=
  s!"Schema '{name}' requested but not available"

/-- Line 657. -/
def noMatchWarnMsg : String :=
  "Could not confidently match dataset columns to complaints or recalls schema"

/-- Line 675. -/
def modelYearWarnMsg (name : String) (count : Nat) : String :=
  s!"{name}: {commaFormat count} values outside expected range (1900-2100 or 9999)"

/-! ### Per-column validation (the loop body of lines 562-648) -/

/-- Embedding of `_allowed_values_for_field` (schema_checks.py lines 253-268). -/
def allowedValuesForField (schemaName : String) (field : FieldSpec) : List String :=
  match schemaEnumOverride schemaName field.name with
  | some vs => vs
  | none => if field.isYesNo then ["Y", "N"] else field.allowedCodes

/-- Everything one iteration of the per-column loop contributes to the
report: the column report, the issue-count increments, and the warning and
error messages in their appended order. -/
structure ColumnOutcome where
  name : String
  colReport : ColumnReport
  counts : FieldIssueCounts
  warnings : List String
  errors : List String
deriving Repr, DecidableEq

/-- One iteration of the per-column loop (lines 562-648) for a present
expected column. -/
def checkColumn (schemaName name : String) (field : FieldSpec) (series : Series) :
    ColumnOutcome :=
  let nrOpt : Option NumericResult :=
    if field.type = "NUMBER" then some (validateNumericField series field.size) else none
  let drOpt : Option DateResult :=
    if field.isDate then some (validateDateField series) else none
  let allowedMax := (schemaLengthOverride schemaName name).getD field.size
  let crOpt : Option CharLengthResult :=
    if field.type = "CHAR" then some (validateCharLength series allowedMax field.isDate) else none
  let erOpt : Option EnumResult :=
    if field.type = "CHAR" then
      some (validateEnumField series (allowedValuesForField schemaName field))
    else none
  { name := name,
    colReport := { type := field.type, size := field.size, numeric := nrOpt, date := drOpt,
                   charLength := crOpt, enum := erOpt },
    counts :=
      { dateInvalidTotal := drOpt.elim 0 fun dr => dr.invalidDateCount,
        dateZeroPlaceholderTotal := drOpt.elim 0 fun dr => dr.placeholderZeroCount,
        numericNonNumericTotal := nrOpt.elim 0 fun nr => nr.nonNumericCount,
        numericNonIntegerTotal := nrOpt.elim 0 fun nr => nr.nonIntegerCount,
        numericDigitsOverflowTotal := nrOpt.elim 0 fun nr => nr.digitsOverflowCount,
        charLengthOverflowTotal := crOpt.elim 0 fun cr => cr.tooLongCount,
        enumInvalidTotal := erOpt.elim 0 fun er => er.invalidValueCount },
    warnings :=
      (nrOpt.elim [] fun nr =>
        (if nr.nonIntegerCount > 0 then [nonIntegerWarnMsg name nr.nonIntegerCount] else []) ++
        (if nr.digitsOverflowCount > 0 then
          [digitsOverflowWarnMsg name nr.digitsOverflowCount field.size] else [])) ++
      (drOpt.elim [] fun dr =>
        if dr.placeholderZeroCount > 0 then
          [placeholderWarnMsg name dr.placeholderZeroCount] else []) ++
      (crOpt.elim [] fun cr =>
        if cr.tooLongCount > 0 ∧ allowedMax ≠ field.size then
          [charLegacyWarnMsg name cr.tooLongCount field.size allowedMax] else []) ++
      (erOpt.elim [] fun er =>
        if er.invalidValueCount > 0 then [enumWarnMsg name er.invalidValueCount] else []),
    errors :=
      (nrOpt.elim [] fun nr =>
        if nr.nonNumericCount > 0 then [nonNumericErrMsg name nr.nonNumericCount] else []) ++
      (drOpt.elim [] fun dr =>
        if dr.invalidDateCount > 0 then [invalidDateErrMsg name dr.invalidDateCount] else []) ++
      (crOpt.elim [] fun cr =>
        if cr.tooLongCount > 0 ∧ allowedMax = field.size then
          [charErrMsg name cr.tooLongCount allowedMax] else []) }

/-- `field_map[column_name]` (line 563): its `KeyError` is the `Except.error`. -/
def fieldLookupE (spec : SchemaSpec) (name : String) : Except String FieldSpec :=
  match spec.fieldLookup name with
  | some f => Except.ok f
  | none => Except.error s!"KeyError: {name}"

/-- `df[column_name]` (line 565): its `KeyError` is the `Except.error`. -/
def seriesLookup (df : DataFrame) (name : String) : Except String Series :=
  match df.cols.find? fun c => c.1 = name with
  | some c => Except.ok c.2
  | none => Except.error s!"KeyError: {name}"

/-- Effectful map over a list in the `Except` monad, failing at the first
failure exactly as the Python loop raises at its first bad lookup. -/
def mapExcept {α β ε : Type} (f : α → Except ε β) : List α → Except ε (List β)
  | [] => Except.ok []
  | x :: xs => do
    let y ← f x
    let ys ← mapExcept f xs
    Except.ok (y :: ys)

/-- The loop body for one present expected column. -/
def columnStep (schemaName : String) (spec : SchemaSpec) (df : DataFrame) (name : String) :
    Except String ColumnOutcome := do
  let field ← fieldLookupE spec name
  let series ← seriesLookup df name
  Except.ok (checkColumn schemaName name field series)

/-- The whole per-column loop over the present expected columns. -/
def columnOutcomes (schemaName : String) (spec : SchemaSpec) (df : DataFrame)
    (presentExpected : List String) : Except String (List ColumnOutcome) :=
  mapExcept (columnStep schemaName spec df) presentExpected

/-- Sum of the per-column issue-count increments. -/
def sumCounts (l : List ColumnOutcome) : FieldIssueCounts :=
  l.foldl
    (fun acc o =>
      { dateInvalidTotal := acc.dateInvalidTotal + o.counts.dateInvalidTotal,
        dateZeroPlaceholderTotal := acc.dateZeroPlaceholderTotal + o.counts.dateZeroPlaceholderTotal,
        numericNonNumericTotal := acc.numericNonNumericTotal + o.counts.numericNonNumericTotal,
        numericNonIntegerTotal := acc.numericNonIntegerTotal + o.counts.numericNonIntegerTotal,
        numericDigitsOverflowTotal :=
          acc.numericDigitsOverflowTotal + o.counts.numericDigitsOverflowTotal,
        charLengthOverflowTotal := acc.charLengthOverflowTotal + o.counts.charLengthOverflowTotal,
        enumInvalidTotal := acc.enumInvalidTotal + o.counts.enumInvalidTotal })
    {}

/-! ### The report builder -/

/-- The schema-independent diagnostics of `collect_schema_report`: duplicate
rows (line 448), the id column (lines 660-665) and the model-year column
(lines 667-676). -/
structure StructuralInfo where
  duplicateRows : Option Nat
  idColumnFound : Option String
  idNullCount : Option Nat
  idDuplicateCount : Option Nat
  modelYearColumnFound : Option String
  modelYearOutOfRangeCount : Option Nat
  modelYearWarnings : List String
deriving Repr, DecidableEq

/-- Compute the schema-independent diagnostics.  `findIdColumn` and
`findModelYearColumn` only return present column names, so the inner lookups
cannot miss; a missing lookup contributes nothing. -/
def structuralInfo (df : DataFrame) : StructuralInfo :=
  let idPart : Option String × Option Nat × Option Nat :=
    match findIdColumn df with
    | none => (none, none, none)
    | some c =>
      match df.cols.find? fun e => e.1 = c with
      | none => (some c, none, none)
      | some e =>
        (some c, some (e.2.values.filter fun v => v.isNone).length,
         if df.nRows ≤ 1000000 then some (dupCount e.2.values) else none)
  let myPart : Option String × Option Nat × List String :=
    match findModelYearColumn df with
    | none => (none, none, [])
    | some c =>
      match df.cols.find? fun e => e.1 = c with
      | none => (some c, none, [])
      | some e =>
        let count := (e.2.values.filter fun v => modelYearOutOfRange v).length
        (some c, some count, if count > 0 then [modelYearWarnMsg c count] else [])
  { duplicateRows := if df.nRows ≤ 500000 then some (dupCount df.rows) else none,
    idColumnFound := idPart.1, idNullCount := idPart.2.1, idDuplicateCount := idPart.2.2,
    modelYearColumnFound := myPart.1, modelYearOutOfRangeCount := myPart.2.1,
    modelYearWarnings := myPart.2.2 }

/-- The report of the branch without a usable schema spec (line 650):
`tailWarn` is the warning of lines 651-658. -/
def reportWithoutSpec (df : DataFrame) (datasetName : String) (detected : Option String)
    (matchScore : ℚ) (catalogWarnings tailWarn : List String) : Report :=
  let info := structuralInfo df
  { datasetName := datasetName, rows := df.nRows, columns := df.columnNames.length,
    duplicateRows := info.duplicateRows,
    idColumnFound := info.idColumnFound, idNullCount := info.idNullCount,
    idDuplicateCount := info.idDuplicateCount,
    modelYearColumnFound := info.modelYearColumnFound,
    modelYearOutOfRangeCount := info.modelYearOutOfRangeCount,
    schemaName := detected, schemaDocPath := none, schemaMatchScore := matchScore,
    expectedColumns := none, presentExpectedColumns := none,
    missingColumns := [], missingOptionalColumns := [], extraColumns := [],
    unexpectedExtraColumns := [], columnOrderMatchesExpected := none,
    fieldChecks := [], fieldIssueCounts := {},
    warnings := catalogWarnings ++ tailWarn ++ info.modelYearWarnings,
    errors := [] }

/-- The report of the matched-schema branch (lines 504-648), given the
per-column outcomes of the loop. -/
def reportWithSpec (df : DataFrame) (datasetName schemaKey : String) (spec : SchemaSpec)
    (matchScore : ℚ) (catalogWarnings : List String) (outcomes : List ColumnOutcome) : Report :=
  let info := structuralInfo df
  let columns := df.columnNames
  let expectedCols := spec.expectedColumns
  let presentExpected := expectedCols.filter fun c => columns.contains c
  let missingRequired := spec.requiredColumns.filter fun c => !columns.contains c
  let missingOptional := spec.optionalColumns.filter fun c => !columns.contains c
  let extraCols := columns.filter fun c => !expectedCols.contains c
  let unexpectedExtra := extraCols.filter fun c => !allowedPipelineExtraColumns.contains c
  let actualExpectedOrder := columns.filter fun c => expectedCols.contains c
  let orderMatches := decide (actualExpectedOrder = presentExpected)
  { datasetName := datasetName, rows := df.nRows, columns := columns.length,
    duplicateRows := info.duplicateRows,
    idColumnFound := info.idColumnFound, idNullCount := info.idNullCount,
    idDuplicateCount := info.idDuplicateCount,
    modelYearColumnFound := info.modelYearColumnFound,
    modelYearOutOfRangeCount := info.modelYearOutOfRangeCount,
    schemaName := some schemaKey, schemaDocPath := some spec.docPath,
    schemaMatchScore := matchScore,
    expectedColumns := some expectedCols.length,
    presentExpectedColumns := some presentExpected.length,
    missingColumns := missingRequired, missingOptionalColumns := missingOptional,
    extraColumns := extraCols, unexpectedExtraColumns := unexpectedExtra,
    columnOrderMatchesExpected := some orderMatches,
    fieldChecks := outcomes.map fun o => (o.name, o.colReport),
    fieldIssueCounts := sumCounts outcomes,
    warnings :=
      catalogWarnings ++
      (if unexpectedExtra.isEmpty then [] else [unexpectedExtraMsg unexpectedExtra]) ++
      (if orderMatches then [] else [orderMsg]) ++
      (outcomes.flatMap fun o => o.warnings) ++
      info.modelYearWarnings,
    errors :=
      (if missingRequired.isEmpty then [] else [missingRequiredMsg schemaKey missingRequired]) ++
      (outcomes.flatMap fun o => o.errors) }

/-- Embedding of `collect_schema_report` (schema_checks.py lines 443-678).
The schema resolution of lines 486-498 distinguishes auto-detection from an
explicit schema name; `if detected_schema_name` is Python truthiness, so the
empty string behaves like `None` when fetching the spec (line 503) and skips
both warnings of lines 651-658. -/
def collectSchemaReport (catalogInfo : CatalogInfo) (df : DataFrame)
    (datasetName : String) (schemaName : Option String) : Except String Report :=
  let columns := df.columnNames
  let catalog := catalogInfo.schemas
  let catalogWarnings := catalogInfo.errors.map fun e => catalogErrWarnMsg e.1 e.2
  let resolution : Option String × ℚ × Nat :=
    match schemaName with
    | none => detectSchemaName catalog columns
    | some s =>
      match catalogLookup catalog s with
      | some spec => (some s, schemaScore columns spec, schemaOverlap columns spec)
      | none => (some s, 0, 0)
  let detected := resolution.1
  let matchScore := resolution.2.1
  match detected with
  | none =>
    Except.ok (reportWithoutSpec df datasetName none matchScore catalogWarnings [noMatchWarnMsg])
  | some s =>
    if s = "" then
      Except.ok (reportWithoutSpec df datasetName (some s) matchScore catalogWarnings [])
    else
      match catalogLookup catalog s with
      | none =>
        Except.ok (reportWithoutSpec df datasetName (some s) matchScore catalogWarnings
          [schemaUnavailableWarnMsg s])
      | some spec => do
        let presentExpected := spec.expectedColumns.filter fun c => columns.contains c
        let outcomes ← columnOutcomes s spec df presentExpected
        Except.ok (reportWithSpec df datasetName s spec matchScore catalogWarnings outcomes)

/-! ### Concrete documents, catalogs and datasets used below -/

/-- A well-formed recalls schema document declaring a single field whose name
differs from every configured optional column. -/
def recallsSingleFieldDocLines : List String := ["FIELDS:", "1  RECORD_ID  CHAR(9)"]

/-- The schema parsed from `recallsSingleFieldDocLines`. -/
def recallsSingleFieldSpec : SchemaSpec :=
  { schemaName := "recalls", docPath := "RCL.txt",
    fields := [{ index := 1, nameRaw := "RECORD_ID", name := "record_id", type := "CHAR",
                 size := 9, description := "", isDate := false, isYesNo := false,
                 allowedCodes := [] }] }

/-- A well-formed schema document whose two field rows normalize to the same
name. -/
def duplicateNameDocLines : List String := ["FIELDS:", "1  FOO  CHAR(1)", "2  FOO  CHAR(1)"]

/-- A one-field complaints schema for concrete report-builder runs. -/
def witnessSchemaSpec : SchemaSpec :=
  { schemaName := "complaints", docPath := "CMPL.txt",
    fields := [{ index := 1, nameRaw := "CMPLID", name := "cmplid", type := "CHAR",
                 size := 9, description := "", isDate := false, isYesNo := false,
                 allowedCodes := [] }] }

/-- A catalog holding only `witnessSchemaSpec`. -/
def witnessCatalogInfo : CatalogInfo := ⟨[("complaints", witnessSchemaSpec)], []⟩

/-- A dataset with no columns at all. -/
def witnessEmptyDf : DataFrame := ⟨[]⟩

/-- The report `collect_schema_report` produces for the empty dataset when the
caller explicitly confirms the `"complaints"` schema. -/
def witnessReport : Report :=
  reportWithSpec witnessEmptyDf "data" "complaints" witnessSchemaSpec
    (schemaScore witnessEmptyDf.columnNames witnessSchemaSpec) [] []

/-- A five-field complaints schema exercising every validator. -/
def sampleSchemaSpec : SchemaSpec :=
  { schemaName := "complaints", docPath := "CMPL.txt",
    fields :=
      [{ index := 1, nameRaw := "CMPLID", name := "cmplid", type := "CHAR", size := 9,
         description := "COMPLAINT ID", isDate := false, isYesNo := false, allowedCodes := [] },
       { index := 2, nameRaw := "CRASH", name := "crash", type := "CHAR", size := 1,
         description := "'Y' or 'N'", isDate := false, isYesNo := true, allowedCodes := [] },
       { index := 3, nameRaw := "FAILDATE", name := "faildate", type := "CHAR", size := 8,
         description := "DATE OF FAILURE (YYYYMMDD)", isDate := true, isYesNo := false,
         allowedCodes := [] },
       { index := 4, nameRaw := "MILES", name := "miles", type := "NUMBER", size := 7,
         description := "VEHICLE MILEAGE", isDate := false, isYesNo := false,
         allowedCodes := [] },
       { index := 5, nameRaw := "YEARTXT", name := "yeartxt", type := "CHAR", size := 4,
         description := "MODEL YEAR", isDate := false, isYesNo := false, allowedCodes := [] }] }

/-- A catalog holding only `sampleSchemaSpec`. -/
def sampleCatalogInfo : CatalogInfo := ⟨[("complaints", sampleSchemaSpec)], []⟩

/-- A dataset with one anomaly of every kind against `sampleSchemaSpec`. -/
def sampleDf : DataFrame :=
  ⟨[("cmplid", ⟨false, [some "1", some "2", some "2"]⟩),
    ("crash", ⟨false, [some "Y", some "Q", some "  "]⟩),
    ("faildate", ⟨false, [some "20230101", some "20231301", some "00000000"]⟩),
    ("miles", ⟨false, [some "12.5", some "abc", some "123456789"]⟩),
    ("yeartxt", ⟨false, [some "1899", some "9999", some "2021"]⟩),
    ("source_zip", ⟨false, [some "a.zip", some "a.zip", some "a.zip"]⟩),
    ("junk", ⟨false, [none, none, none]⟩)]⟩

/-- The report for `sampleDf` against the explicitly confirmed complaints
schema. -/
def sampleReport : Report :=
  match collectSchemaReport sampleCatalogInfo sampleDf "sample" (some "complaints") with
  | Except.ok r => r
  | Except.error _ => reportWithoutSpec sampleDf "sample" none 0 [] []

/-- The numeric check the sample report records for the `miles` column. -/
def sampleMilesNumeric : NumericResult :=
  { checked := true, nonNullCount := 3, nonNumericCount := 1, nonIntegerCount := 1,
    digitsOverflowCount := 1, invalidExamples := ["12.5", "abc"] }

/-- The column report the sample report records for the `miles` column. -/
def sampleMilesReport : ColumnReport :=
  { type := "NUMBER", size := 7, numeric := some sampleMilesNumeric }

/-! ## Helper lemmas -/

theorem head?_dropWhile_eq_false {α : Type} (p : α → Bool) :
    ∀ (l : List α) (c : α), (l.dropWhile p).head? = some c → p c = false := by
  intro l
  induction l with
  | nil => intro c h; simp [List.dropWhile] at h
  | cons x xs ih =>
    intro c h
    rw [List.dropWhile_cons] at h
    by_cases hx : p x = true
    · rw [if_pos hx] at h; exact ih c h
    · rw [if_neg hx] at h
      simp only [List.head?_cons, Option.some.injEq] at h
      subst h
      exact Bool.eq_false_iff.mpr hx

theorem collapseSeps_mem :
    ∀ (l : List Char) (b : Bool) (c : Char),
      c ∈ collapseSeps b l → isLowerAlnum c = true ∨ c = '_' := by
  intro l
  induction l with
  | nil => intro b c h; simp [collapseSeps] at h
  | cons x xs ih =>
    intro b c h
    by_cases hx : isLowerAlnum x = true
    · rw [collapseSeps, if_pos hx] at h
      rcases List.mem_cons.mp h with h | h
      · exact Or.inl (h ▸ hx)
      · exact ih false c h
    · rw [collapseSeps, if_neg hx] at h
      by_cases hb : b = true
      · rw [if_pos hb] at h; exact ih true c h
      · rw [if_neg hb] at h
        rcases List.mem_cons.mp h with h | h
        · exact Or.inr h
        · exact ih true c h

theorem collapseSeps_chain :
    ∀ (l : List Char) (b : Bool),
      List.Chain' (fun a c => ¬(a = '_' ∧ c = '_')) (collapseSeps b l) ∧
      (b = true → (collapseSeps b l).head? ≠ some '_') := by
  intro l
  induction l with
  | nil => intro b; exact ⟨List.chain'_nil, by simp [collapseSeps]⟩
  | cons x xs ih =>
    intro b
    by_cases hx : isLowerAlnum x = true
    · rw [collapseSeps, if_pos hx]
      have hxne : x ≠ '_' := by
        intro heq; subst heq; simp [isLowerAlnum, isAsciiDigit] at hx
      refine ⟨List.chain'_cons'.mpr ⟨?_, (ih false).1⟩, ?_⟩
      · intro _ _ hcontr; exact hxne hcontr.1
      · intro _ h; simp only [List.head?_cons, Option.some.injEq] at h; exact hxne h
    · rw [collapseSeps, if_neg hx]
      by_cases hb : b = true
      · rw [if_pos hb]
        exact ⟨(ih true).1, fun _ => (ih true).2 rfl⟩
      · rw [if_neg hb]
        refine ⟨List.chain'_cons'.mpr ⟨?_, (ih true).1⟩, ?_⟩
        · intro y hy hcontr
          exact (ih true).2 rfl (by rw [hy, hcontr.2])
        · intro hb'; exact absurd hb' hb

theorem getLast?_of_suffix {α : Type} {l₁ l₂ : List α} (h : l₁ <:+ l₂) (hne : l₁ ≠ []) :
    l₂.getLast? = l₁.getLast? := by
  obtain ⟨u, hu⟩ := h
  subst hu
  exact List.getLast?_append_of_ne_nil _ hne

/-! ## C10: `_normalize_identifier` output shape -/

/-- C10. For every input, `_normalize_identifier` returns a non-empty string:
when lowercasing, collapsing runs of non-alphanumerics to underscores and
trimming underscores leaves nothing, the result is the literal `"column"`;
otherwise the result is the trimmed text, whose characters are lowercase
letters, digits or single (non-adjacent) underscores, with no leading or
trailing underscore. -/
theorem normalizeIdentifier_shape (v : String) :
    normalizeIdentifier v ≠ "" ∧
    (trimUnderscoreEnds (collapseSeps false (lowerStr (strip v)).data) = [] →
      normalizeIdentifier v = "column") ∧
    (trimUnderscoreEnds (collapseSeps false (lowerStr (strip v)).data) ≠ [] →
      normalizeIdentifier v =
        String.mk (trimUnderscoreEnds (collapseSeps false (lowerStr (strip v)).data)) ∧
      (∀ c ∈ (normalizeIdentifier v).data, isLowerAlnum c = true ∨ c = '_') ∧
      (normalizeIdentifier v).data.head? ≠ some '_' ∧
      (normalizeIdentifier v).data.getLast? ≠ some '_' ∧
      List.Chain' (fun a c => ¬(a = '_' ∧ c = '_')) (normalizeIdentifier v).data) := by
  set l := collapseSeps false (lowerStr (strip v)).data with hl
  set t := trimUnderscoreEnds l with ht
  have hdef : normalizeIdentifier v = if t.isEmpty then "column" else String.mk t := rfl
  by_cases hte : t = []
  · refine ⟨?_, fun _ => ?_, fun hne => absurd hte hne⟩
    · rw [hdef, hte]; decide
    · rw [hdef, hte]; rfl
  · have hmk : normalizeIdentifier v = String.mk t := by
      rw [hdef, if_neg (by simpa [List.isEmpty_iff] using hte)]
    have hdata : (normalizeIdentifier v).data = t := by rw [hmk]
    -- decompose the two-sided underscore trim
    have htY : t = ((l.dropWhile fun c => c = '_').reverse.dropWhile fun c => c = '_').reverse :=
      rfl
    set Z := (l.dropWhile fun c => c = '_').reverse with hZ
    set Y := Z.dropWhile (fun c => c = '_') with hY
    have htY' : t = Y.reverse := htY
    have hYne : Y ≠ [] := by
      intro h0; exact hte (by rw [htY', h0, List.reverse_nil])
    have hnonempty : normalizeIdentifier v ≠ "" := by
      rw [hmk]
      intro hcontr
      exact hte (congrArg String.data hcontr)
    refine ⟨hnonempty, fun h0 => absurd h0 hte, fun _ => ⟨hmk, ?_, ?_, ?_, ?_⟩⟩
    · -- membership
      intro c hc
      rw [hdata] at hc
      have h1 : c ∈ Y := by rw [htY'] at hc; exact List.mem_reverse.mp hc
      have h2 : c ∈ Z := (List.dropWhile_suffix _).sublist.subset h1
      have h3 : c ∈ l.dropWhile fun c => c = '_' := by
        rw [hZ] at h2; exact List.mem_reverse.mp h2
      exact collapseSeps_mem _ false c ((List.dropWhile_suffix _).sublist.subset h3)
    · -- no leading underscore
      rw [hdata, htY', List.head?_reverse]
      intro hcontr
      have hZlast : Z.getLast? = Y.getLast? := getLast?_of_suffix (List.dropWhile_suffix _) hYne
      have hZhead : Z.getLast? = (l.dropWhile fun c => c = '_').head? := by
        rw [hZ, List.getLast?_reverse]
      have := head?_dropWhile_eq_false (fun c => c = '_') l '_'
        (by rw [← hZhead, hZlast, hcontr])
      simp at this
    · -- no trailing underscore
      rw [hdata, htY', List.getLast?_reverse]
      intro hcontr
      have := head?_dropWhile_eq_false (fun c => c = '_') Z '_' (by rw [← hY, hcontr])
      simp at this
    · -- single underscores
      rw [hdata, htY', List.chain'_reverse]
      have hZchain : List.Chain' (fun a c => ¬(a = '_' ∧ c = '_')) Z := by
        rw [hZ, List.chain'_reverse]
        refine List.Chain'.imp ?_
          (((collapseSeps_chain _ false).1).suffix (List.dropWhile_suffix _))
        intro a c h hcontr
        exact h ⟨hcontr.2, hcontr.1⟩
      refine List.Chain'.imp ?_ (hZchain.suffix (List.dropWhile_suffix _))
      intro a c h hcontr
      exact h ⟨hcontr.2, hcontr.1⟩

/-! ## C4: the date validator -/

theorem countSome_eq_zero_iff (l : List (Option String)) :
    countSome l = 0 ↔ ∀ v ∈ l, v = none := by
  constructor
  · intro h v hv
    have hfil := List.length_eq_zero.mp h
    by_contra hne
    have : v.isSome = true := Option.ne_none_iff_isSome.mp hne
    have : v ∈ List.filter (fun v => v.isSome) l := List.mem_filter.mpr ⟨hv, this⟩
    rw [hfil] at this
    exact absurd this (List.not_mem_nil v)
  · intro h
    have : List.filter (fun v => v.isSome) l = [] := by
      rw [List.filter_eq_nil_iff]
      intro v hv
      rw [h v hv]
      simp
    simp [countSome, this]

theorem length_filterMap_id_of_isSome {α : Type} :
    ∀ (l : List (Option α)), (∀ v ∈ l, v.isSome = true) → (l.filterMap id).length = l.length := by
  intro l
  induction l with
  | nil => intro _; rfl
  | cons v vs ih =>
    intro h
    obtain ⟨a, rfl⟩ := Option.isSome_iff_exists.mp (h v (List.mem_cons_self v vs))
    simp only [List.filterMap_cons, id, List.length_cons]
    rw [ih fun w hw => h w (List.mem_cons_of_mem _ hw)]

theorem dateInvalid_of_checkable {v : Option String} (h : dateInvalid v = true) :
    dateCheckable v = true := by
  cases v with
  | none => simp [dateInvalid] at h
  | some t =>
    simp only [dateInvalid, Bool.and_eq_true] at h
    simp [dateCheckable, h.1]

/-- C4 (counterexample). The claimed characterization "invalid iff not an
exactly-8-digit string parsing as a real YYYYMMDD calendar date" is false of
the code: `"13000101"` is an exactly-8-digit real calendar date
(1300-01-01), yet `pd.to_datetime(..., format="%Y%m%d", errors="coerce")`
coerces it to `NaT` because it lies outside the nanosecond `Timestamp`
range, so the validator counts it invalid. -/
theorem dateValidator_calendar_iff_refuted :
    isRealCalendarYYYYMMDD "13000101" = true ∧
    isPlaceholderZero "13000101" = false ∧
    (validateDateField ⟨false, [some "13000101"]⟩).nonNullCount = 1 ∧
    (validateDateField ⟨false, [some "13000101"]⟩).invalidDateCount = 1 := by
  refine ⟨?_, ?_, ?_, ?_⟩ <;> decide

/-- C4 (as amended). On a non-datetime column, the date validator counts a
cleaned value as invalid exactly when it is non-null, not an all-zero
placeholder, and not an exactly-8-digit string forming a real `YYYYMMDD`
calendar date **within pandas' representable `Timestamp` range, 1677-09-22
through 2262-04-11** (`dateInvalid` is precisely that predicate); on the
four-value example series it reports 4 non-null values, 1 placeholder and 2
invalid dates. -/
theorem dateValidator_invalid_iff :
    (∀ (s : Series), s.isDatetime = false →
      (validateDateField s).invalidDateCount =
        ((cleanTextSeries s.values).filter fun v => dateInvalid v).length) ∧
    validateDateField
        ⟨false, [some "20230101", some "00000000", some "99999999", some "20231301"]⟩ =
      { checked := true, nonNullCount := 4, placeholderZeroCount := 1,
        invalidDateCount := 2, invalidExamples := ["20231301", "99999999"] } := by
  constructor
  · intro s hdt
    have hfil :
        ((cleanTextSeries s.values).filter fun v => dateInvalid v).length =
          (((cleanTextSeries s.values).filter fun v => dateInvalid v).filterMap id).length := by
      refine (length_filterMap_id_of_isSome _ fun v hv => ?_).symm
      have hinv := (List.mem_filter.mp hv).2
      cases v with
      | none => simp [dateInvalid] at hinv
      | some t => rfl
    unfold validateDateField
    rw [hdt]
    simp only [Bool.false_eq_true, if_false]
    by_cases h0 : countSome (cleanTextSeries s.values) = 0
    · rw [if_pos h0]
      have : ((cleanTextSeries s.values).filter fun v => dateInvalid v) = [] := by
        rw [List.filter_eq_nil_iff]
        intro v hv
        rw [(countSome_eq_zero_iff _).mp h0 v hv]
        simp [dateInvalid]
      simp [this]
    · rw [if_neg h0]
      by_cases h1 : ((cleanTextSeries s.values).filter fun v => dateCheckable v).length = 0
      · rw [if_pos h1]
        have hnil := List.length_eq_zero.mp h1
        have : ((cleanTextSeries s.values).filter fun v => dateInvalid v) = [] := by
          rw [List.filter_eq_nil_iff]
          intro v hv hinv
          have : v ∈ List.filter (fun v => dateCheckable v) (cleanTextSeries s.values) :=
            List.mem_filter.mpr ⟨hv, dateInvalid_of_checkable hinv⟩
          rw [hnil] at this
          exact absurd this (List.not_mem_nil v)
        simp [this]
      · rw [if_neg h1, hfil]
  · decide

/-! ## C5: the numeric validator -/

/-- C5. The numeric validator on
`["12", "12.0", "abc", "", "1234567890123"]` with `max_digits = 5` reports one
null (4 non-null), 1 non-numeric value, 0 non-integer values and 1 digit
overflow.  `"12.0"` parses to the exact value `120 / 10` whose fractional part
is below the `1e-9` tolerance, the digit-character count of
`"1234567890123"` is 13 (punctuation excluded, e.g. `"12.0"` counts 3), and
the empty string cleans to a missing value. -/
theorem numericValidator_example :
    validateNumericField
        ⟨false, [some "12", some "12.0", some "abc", some "", some "1234567890123"]⟩ 5 =
      { checked := true, nonNullCount := 4, nonNumericCount := 1, nonIntegerCount := 0,
        digitsOverflowCount := 1, invalidExamples := ["abc"] } ∧
    parseDecimal "12.0" = some (120, 1) ∧
    integralWithinTol (120, 1) = true ∧
    parseDecimal "abc" = none ∧
    digitCharCount "1234567890123" = 13 ∧
    digitCharCount "12.0" = 3 ∧
    cleanValue (some "") = none := by
  refine ⟨?_, ?_, ?_, ?_, ?_, ?_, ?_⟩ <;> decide

/-! ## C7: the enum validator -/

theorem lexLt_of_not_lexLt {a b : List Char} (h : lexLt a b = false) (hne : a ≠ b) :
    lexLt b a = true := by
  induction a generalizing b with
  | nil =>
    cases b with
    | nil => exact absurd rfl hne
    | cons c cs => simp [lexLt] at h
  | cons x xs ih =>
    cases b with
    | nil => rfl
    | cons y ys =>
      by_cases hxy : x < y
      · rw [lexLt, if_pos hxy] at h; simp at h
      · by_cases hyx : y < x
        · rw [lexLt, if_pos hyx]
        · have hx_eq : x = y := le_antisymm (not_lt.mp hyx) (not_lt.mp hxy)
          subst hx_eq
          rw [lexLt, if_neg hxy, if_neg hxy] at h
          rw [lexLt, if_neg hxy, if_neg hxy]
          exact ih h (fun hcontr => hne (by rw [hcontr]))

theorem strLt_of_not_strLt {a b : String} (h : strLt a b = false) (hne : a ≠ b) :
    strLt b a = true := by
  refine lexLt_of_not_lexLt h fun hcontr => hne ?_
  cases a; cases b
  exact congrArg String.mk hcontr

theorem insertUniq_head (x : String) (l : List String) :
    (insertUniq x l).head? = some x ∨ (insertUniq x l).head? = l.head? := by
  cases l with
  | nil => exact Or.inl rfl
  | cons y ys =>
    rw [insertUniq]
    by_cases h1 : strLt x y = true
    · rw [if_pos h1]; exact Or.inl rfl
    · rw [if_neg h1]
      by_cases h2 : x = y
      · rw [if_pos h2]; exact Or.inr rfl
      · rw [if_neg h2]; exact Or.inr rfl

theorem chain'_insertUniq (x : String) :
    ∀ (l : List String), List.Chain' (fun a b => strLt a b = true) l →
      List.Chain' (fun a b => strLt a b = true) (insertUniq x l) := by
  intro l
  induction l with
  | nil => intro _; simp [insertUniq]
  | cons y ys ih =>
    intro hchain
    have hys := (List.chain'_cons'.mp hchain).2
    have hhead := (List.chain'_cons'.mp hchain).1
    rw [insertUniq]
    by_cases h1 : strLt x y = true
    · rw [if_pos h1]
      refine List.chain'_cons'.mpr ⟨?_, hchain⟩
      intro z hz
      simp only [List.head?_cons, Option.mem_def, Option.some.injEq] at hz
      exact hz ▸ h1
    · rw [if_neg h1]
      by_cases h2 : x = y
      · rw [if_pos h2]; exact hchain
      · rw [if_neg h2]
        refine List.chain'_cons'.mpr ⟨?_, ih hys⟩
        intro z hz
        rcases insertUniq_head x ys with hh | hh
        · rw [hh] at hz
          simp only [Option.mem_def, Option.some.injEq] at hz
          subst hz
          exact strLt_of_not_strLt (Bool.eq_false_iff.mpr h1) h2
        · rw [hh] at hz
          exact hhead z hz

theorem chain'_sortedUniq (l : List String) :
    List.Chain' (fun a b => strLt a b = true) (sortedUniq l) := by
  induction l with
  | nil => simp [sortedUniq]
  | cons x xs ih => exact chain'_insertUniq x _ ih

theorem chain'_take {α : Type} {R : α → α → Prop} :
    ∀ (l : List α) (n : Nat), List.Chain' R l → List.Chain' R (l.take n) := by
  intro l
  induction l with
  | nil => intro n _; simp
  | cons x xs ih =>
    intro n hchain
    cases n with
    | zero => simp
    | succ m =>
      rw [List.take_succ_cons]
      refine List.chain'_cons'.mpr ⟨?_, ih m (List.chain'_cons'.mp hchain).2⟩
      intro y hy
      apply (List.chain'_cons'.mp hchain).1
      cases xs with
      | nil => simp at hy
      | cons z zs =>
        cases m with
        | zero => simp at hy
        | succ k => simpa using hy

theorem filterMap_id_map_optionMap {α β : Type} (f : α → β) :
    ∀ (l : List (Option α)), (l.map (Option.map f)).filterMap id = (l.filterMap id).map f := by
  intro l
  induction l with
  | nil => rfl
  | cons v vs ih =>
    cases v with
    | none => simpa [List.filterMap_cons] using ih
    | some a => simpa [List.filterMap_cons] using ih

theorem filterMap_id_eq_nil_of_all_none {α : Type} :
    ∀ (l : List (Option α)), (∀ v ∈ l, v = none) → l.filterMap id = [] := by
  intro l
  induction l with
  | nil => intro _; rfl
  | cons v vs ih =>
    intro h
    rw [h v (List.mem_cons_self v vs), List.filterMap_cons]
    exact ih fun w hw => h w (List.mem_cons_of_mem _ hw)

/-- C7 (counterexample). The claim says the recorded enum examples are the
original raw strings of the offending values; on the series `["x"]` with
allowed set `["Y"]` the single offending raw value is `"x"`, yet the recorded
example list is the upper-cased `["X"]` and does not contain `"x"`. -/
theorem enumValidator_raw_examples_refuted :
    (validateEnumField ⟨false, [some "x"]⟩ ["Y"]).invalidValueCount = 1 ∧
    (validateEnumField ⟨false, [some "x"]⟩ ["Y"]).invalidExamples = ["X"] ∧
    "x" ∉ (validateEnumField ⟨false, [some "x"]⟩ ["Y"]).invalidExamples := by
  refine ⟨?_, ?_, ?_⟩ <;> decide

/-- C7 (as amended). For a non-empty allowed set, the enum validator records
at most 8 sorted distinct examples; the examples are the distinct, sorted,
**upper-cased** forms of the non-null cleaned values failing the
case-insensitive membership test (not the raw strings). -/
theorem enumValidator_examples (series : Series) (allowed : List String) (hne : allowed ≠ []) :
    (validateEnumField series allowed).invalidExamples =
      (sortedUniq ((((cleanTextSeries series.values).filterMap id).map upperStr).filter
        fun t => !((allowed.map upperStr).contains t))).take 8 ∧
    (validateEnumField series allowed).invalidExamples.length ≤ 8 ∧
    List.Chain' (fun a b => strLt a b = true)
      (validateEnumField series allowed).invalidExamples := by
  have hcomm :
      ((cleanTextSeries series.values).map fun v => v.map upperStr).filterMap id =
        ((cleanTextSeries series.values).filterMap id).map upperStr :=
    filterMap_id_map_optionMap upperStr _
  have hmain :
      (validateEnumField series allowed).invalidExamples =
        (sortedUniq ((((cleanTextSeries series.values).filterMap id).map upperStr).filter
          fun t => !((allowed.map upperStr).contains t))).take 8 := by
    rw [← hcomm]
    simp only [validateEnumField,
      if_neg (show ¬allowed.isEmpty = true by simpa [List.isEmpty_iff] using hne)]
    split_ifs with h0 h1
    · have hnil : ((cleanTextSeries series.values).map fun v => v.map upperStr).filterMap id = [] :=
        filterMap_id_eq_nil_of_all_none _ ((countSome_eq_zero_iff _).mp h0)
      rw [hnil]
      rfl
    · rfl
    · have hnil := List.length_eq_zero.mp (Nat.eq_zero_of_not_pos h1)
      rw [hnil]
      rfl
  refine ⟨hmain, ?_, ?_⟩
  · rw [hmain]; exact List.length_take_le 8 _
  · rw [hmain]
    exact chain'_take _ 8 (chain'_sortedUniq _)

/-- C7 (witness): the amended statement instantiated at the one-value series
and the non-empty allowed set `["Y"]`. -/
theorem enumValidator_examples_witness :
    (validateEnumField ⟨false, [some "x"]⟩ ["Y"]).invalidExamples =
      (sortedUniq ((((cleanTextSeries [some "x"]).filterMap id).map upperStr).filter
        fun t => !((["Y"].map upperStr).contains t))).take 8 ∧
    (validateEnumField ⟨false, [some "x"]⟩ ["Y"]).invalidExamples.length ≤ 8 ∧
    List.Chain' (fun a b => strLt a b = true)
      (validateEnumField ⟨false, [some "x"]⟩ ["Y"]).invalidExamples :=
  enumValidator_examples ⟨false, [some "x"]⟩ ["Y"] (by decide)

/-! ## C1: derived column lists of a parsed schema -/

/-- C1 (counterexample). A recalls document that parses successfully but
declares none of the configured optional columns: `"do_not_drive"` lies in
`required_columns ∪ optional_columns` yet not in `expected_columns`, so the
union is strictly larger than `expected_columns`. -/
theorem parse_optional_union_refuted :
    parseSchemaDoc "RCL.txt" recallsSingleFieldDocLines "recalls" =
      Except.ok recallsSingleFieldSpec ∧
    "do_not_drive" ∈
      recallsSingleFieldSpec.requiredColumns ++ recallsSingleFieldSpec.optionalColumns ∧
    "do_not_drive" ∉ recallsSingleFieldSpec.expectedColumns := by
  refine ⟨rfl, by decide, by decide⟩

/-- C1 (as amended). For every successfully parsed schema document:
`expected_columns` has exactly one entry per field, `required_columns` is a
subset of `expected_columns`, every expected column is required or optional,
and the union `required_columns ∪ optional_columns` equals `expected_columns`
exactly when every configured optional column actually appears among the
parsed field names (the union may otherwise strictly exceed it). -/
theorem parse_column_invariants (docPath : String) (docLines : List String)
    (schemaName : String) (spec : SchemaSpec)
    (_h : parseSchemaDoc docPath docLines schemaName = Except.ok spec) :
    spec.expectedColumns.length = spec.fields.length ∧
    (∀ c ∈ spec.requiredColumns, c ∈ spec.expectedColumns) ∧
    (∀ c ∈ spec.expectedColumns, c ∈ spec.requiredColumns ∨ c ∈ spec.optionalColumns) ∧
    ((∀ c ∈ spec.optionalColumns, c ∈ spec.expectedColumns) →
      ∀ c, (c ∈ spec.requiredColumns ∨ c ∈ spec.optionalColumns) ↔ c ∈ spec.expectedColumns) := by
  refine ⟨List.length_map _ _, ?_, ?_, ?_⟩
  · intro c hc
    exact List.mem_of_mem_filter hc
  · intro c hc
    by_cases hopt : (schemaOptionalColumns spec.schemaName).contains c
    · right
      simpa [SchemaSpec.optionalColumns] using hopt
    · left
      exact List.mem_filter.mpr ⟨hc, by simp_all⟩
  · intro hsub c
    constructor
    · rintro (hc | hc)
      · exact List.mem_of_mem_filter hc
      · exact hsub c hc
    · intro hc
      by_cases hopt : (schemaOptionalColumns spec.schemaName).contains c
      · right
        simpa [SchemaSpec.optionalColumns] using hopt
      · left
        exact List.mem_filter.mpr ⟨hc, by simp_all⟩

/-- C1 (witness): the amended invariants instantiated at the concrete
single-field recalls document. -/
theorem parse_column_invariants_witness :
    recallsSingleFieldSpec.expectedColumns.length = recallsSingleFieldSpec.fields.length ∧
    (∀ c ∈ recallsSingleFieldSpec.requiredColumns, c ∈ recallsSingleFieldSpec.expectedColumns) ∧
    (∀ c ∈ recallsSingleFieldSpec.expectedColumns,
      c ∈ recallsSingleFieldSpec.requiredColumns ∨ c ∈ recallsSingleFieldSpec.optionalColumns) ∧
    ((∀ c ∈ recallsSingleFieldSpec.optionalColumns, c ∈ recallsSingleFieldSpec.expectedColumns) →
      ∀ c, (c ∈ recallsSingleFieldSpec.requiredColumns ∨
             c ∈ recallsSingleFieldSpec.optionalColumns) ↔
           c ∈ recallsSingleFieldSpec.expectedColumns) :=
  parse_column_invariants "RCL.txt" recallsSingleFieldDocLines "recalls"
    recallsSingleFieldSpec rfl

/-! ## C8: field order and name uniqueness in a parsed schema -/

/-- C8 (counterexample). A document whose two field rows both normalize to
the name `"foo"` parses successfully, so `normalized_name` values of a parsed
schema need not be pairwise unique. -/
theorem parse_name_uniqueness_refuted :
    (parseSchemaDoc "DUP.txt" duplicateNameDocLines "complaints").map
        (fun spec => spec.fields.map fun f => f.name) = Except.ok ["foo", "foo"] ∧
    ¬ (["foo", "foo"] : List String).Nodup := by
  refine ⟨rfl, by decide⟩

/-- C8 (as amended). The fields of every successfully parsed schema are in
nondecreasing index order (the stable sort by `index` of the declaration
order); the claimed pairwise uniqueness of normalized names does not hold in
general. -/
theorem parse_fields_sorted (docPath : String) (docLines : List String)
    (schemaName : String) (spec : SchemaSpec)
    (h : parseSchemaDoc docPath docLines schemaName = Except.ok spec) :
    List.Pairwise (fun a b => a.index ≤ b.index) spec.fields := by
  unfold parseSchemaDoc at h
  by_cases hemp : (scanDocLines docLines false []).isEmpty
  · rw [if_pos hemp] at h
    exact absurd h (by simp)
  · rw [if_neg hemp] at h
    have hspec := Except.ok.inj h
    rw [← hspec]
    have hsorted : List.Pairwise (fun a b : RawField => a.index ≤ b.index)
        (List.insertionSort (fun a b => a.index ≤ b.index) (scanDocLines docLines false [])) := by
      haveI : IsTotal RawField (fun a b => a.index ≤ b.index) := ⟨fun a b => Nat.le_total _ _⟩
      haveI : IsTrans RawField (fun a b => a.index ≤ b.index) :=
        ⟨fun _ _ _ h₁ h₂ => Nat.le_trans h₁ h₂⟩
      exact List.sorted_insertionSort _ _
    exact List.pairwise_map.mpr (hsorted.imp fun hab => hab)

/-- C8 (witness): the amended ordering instantiated at the concrete
single-field recalls document. -/
theorem parse_fields_sorted_witness :
    List.Pairwise (fun a b => a.index ≤ b.index) recallsSingleFieldSpec.fields :=
  parse_fields_sorted "RCL.txt" recallsSingleFieldDocLines "recalls"
    recallsSingleFieldSpec rfl

/-! ## C3: the matcher threshold and explicit confirmation mode -/

theorem exceptBind_error {ε α β : Type} (msg : ε) (f : α → Except ε β) :
    ((Except.error msg : Except ε α) >>= f) = Except.error msg := rfl

theorem exceptBind_ok {ε α β : Type} (a : α) (f : α → Except ε β) :
    ((Except.ok a : Except ε α) >>= f) = f a := rfl

theorem detectStep_le (columns : List String) (acc : Option String × ℚ × Nat)
    (e : String × SchemaSpec) :
    acc.2.1 ≤ (detectStep columns acc e).2.1 ∧
    schemaScore columns e.2 ≤ (detectStep columns acc e).2.1 := by
  unfold detectStep
  by_cases h : schemaScore columns e.2 > acc.2.1
  · rw [if_pos h]
    exact ⟨le_of_lt h, le_refl _⟩
  · rw [if_neg h]
    exact ⟨le_refl _, not_lt.mp h⟩

theorem foldl_detect_le (columns : List String) :
    ∀ (cat : List (String × SchemaSpec)) (acc : Option String × ℚ × Nat),
      acc.2.1 ≤ (cat.foldl (detectStep columns) acc).2.1 := by
  intro cat
  induction cat with
  | nil => intro acc; exact le_refl _
  | cons e cat ih =>
    intro acc
    rw [List.foldl_cons]
    exact le_trans (detectStep_le columns acc e).1 (ih _)

theorem foldl_detect_best (columns : List String) :
    ∀ (cat : List (String × SchemaSpec)) (acc : Option String × ℚ × Nat),
      ∀ e ∈ cat, schemaScore columns e.2 ≤ (cat.foldl (detectStep columns) acc).2.1 := by
  intro cat
  induction cat with
  | nil => intro acc e he; exact absurd he (List.not_mem_nil e)
  | cons f cat ih =>
    intro acc e he
    rw [List.foldl_cons]
    rcases List.mem_cons.mp he with he | he
    · subst he
      exact le_trans (detectStep_le columns acc e).2 (foldl_detect_le columns cat _)
    · exact ih _ e he

theorem foldl_detect_attained (columns : List String) :
    ∀ (cat : List (String × SchemaSpec)) (acc : Option String × ℚ × Nat),
      cat.foldl (detectStep columns) acc = acc ∨
      ∃ e ∈ cat, cat.foldl (detectStep columns) acc =
        (some e.1, schemaScore columns e.2, schemaOverlap columns e.2) := by
  intro cat
  induction cat with
  | nil => intro acc; exact Or.inl rfl
  | cons f cat ih =>
    intro acc
    rw [List.foldl_cons]
    rcases ih (detectStep columns acc f) with h | ⟨e, he, h⟩
    · rw [h]
      unfold detectStep
      by_cases hgt : schemaScore columns f.2 > acc.2.1
      · rw [if_pos hgt]
        exact Or.inr ⟨f, List.mem_cons_self f cat, rfl⟩
      · rw [if_neg hgt]
        exact Or.inl rfl
    · exact Or.inr ⟨e, List.mem_cons_of_mem f he, h⟩

/-- C3. In auto-detection mode the returned score is the best score over the
catalog (attained by some entry unless the initial zero stands), and a best
score below 0.35 yields no schema name; with an explicit configured schema
name the report keeps that name and scores against that schema only — the
0.35 threshold is not applied. -/
theorem matcher_threshold_and_explicit :
    (∀ (catalog : List (String × SchemaSpec)) (columns : List String),
      ((detectSchemaName catalog columns).2.1 < 35 / 100 →
        (detectSchemaName catalog columns).1 = none) ∧
      (∀ e ∈ catalog, schemaScore columns e.2 ≤ (detectSchemaName catalog columns).2.1) ∧
      (((detectSchemaName catalog columns).2.1 = 0 ∧
          (detectSchemaName catalog columns).2.2 = 0) ∨
        ∃ e ∈ catalog,
          (detectSchemaName catalog columns).2.1 = schemaScore columns e.2 ∧
          (detectSchemaName catalog columns).2.2 = schemaOverlap columns e.2)) ∧
    (∀ (ci : CatalogInfo) (df : DataFrame) (label s : String) (spec : SchemaSpec) (r : Report),
      catalogLookup ci.schemas s = some spec →
      collectSchemaReport ci df label (some s) = Except.ok r →
      r.schemaName = some s ∧ r.schemaMatchScore = schemaScore df.columnNames spec) := by
  constructor
  · intro catalog columns
    unfold detectSchemaName
    set best := catalog.foldl (detectStep columns) (none, 0, 0) with hbest
    by_cases hth : best.2.1 < 35 / 100
    · rw [if_pos hth]
      refine ⟨fun _ => rfl, fun e he => foldl_detect_best columns catalog _ e he, ?_⟩
      rcases foldl_detect_attained columns catalog (none, 0, 0) with h | ⟨e, he, h⟩
      · rw [← hbest] at h
        rw [h]
        exact Or.inl ⟨rfl, rfl⟩
      · rw [← hbest] at h
        rw [h]
        exact Or.inr ⟨e, he, rfl, rfl⟩
    · rw [if_neg hth]
      refine ⟨fun hcontr => absurd hcontr hth,
        fun e he => foldl_detect_best columns catalog _ e he, ?_⟩
      rcases foldl_detect_attained columns catalog (none, 0, 0) with h | ⟨e, he, h⟩
      · rw [← hbest] at h
        rw [h]
        exact Or.inl ⟨rfl, rfl⟩
      · rw [← hbest] at h
        rw [h]
        exact Or.inr ⟨e, he, rfl, rfl⟩
  · intro ci df label s spec r hlook hrep
    simp only [collectSchemaReport] at hrep
    rw [hlook] at hrep
    simp only at hrep
    by_cases hs : s = ""
    · rw [if_pos hs] at hrep
      have := Except.ok.inj hrep
      rw [← this]
      exact ⟨rfl, rfl⟩
    · rw [if_neg hs, hlook] at hrep
      simp only at hrep
      cases houtcomes :
          columnOutcomes s spec df
            (spec.expectedColumns.filter fun c => df.columnNames.contains c) with
      | error msg =>
        rw [houtcomes, exceptBind_error] at hrep
        exact absurd hrep (by simp)
      | ok outcomes =>
        rw [houtcomes, exceptBind_ok] at hrep
        have := Except.ok.inj hrep
        rw [← this]
        exact ⟨rfl, rfl⟩

/-- C3 (witness): on the empty catalog the best score 0 lies below 0.35 and
no schema name is returned; explicitly confirming `"complaints"` on the empty
dataset keeps the name with its (sub-threshold) score. -/
theorem matcher_threshold_and_explicit_witness :
    ((detectSchemaName [] []).2.1 < 35 / 100 ∧ (detectSchemaName [] []).1 = none) ∧
    (witnessReport.schemaName = some "complaints" ∧
      witnessReport.schemaMatchScore = schemaScore witnessEmptyDf.columnNames witnessSchemaSpec) := by
  have h1 : (detectSchemaName [] []).2.1 < 35 / 100 := by
    norm_num [detectSchemaName]
  refine ⟨⟨h1, (matcher_threshold_and_explicit.1 [] []).1 h1⟩, ?_⟩
  exact matcher_threshold_and_explicit.2 witnessCatalogInfo witnessEmptyDf "data" "complaints"
    witnessSchemaSpec witnessReport rfl rfl

/-! ## C9: explicit but unconfigured schema names -/

/-- C9 (counterexample). With the empty string as the explicit schema name —
a name that is not configured — the builder still returns a report with score
0 and no field checks, but records **no** warning at all: the Python
truthiness test `if detected_schema_name` (line 651) treats `""` like `None`,
so the "requested but not available" warning is skipped. -/
theorem unconfigured_empty_name_no_warning :
    catalogLookup (CatalogInfo.mk [] []).schemas "" = none ∧
    (collectSchemaReport ⟨[], []⟩ ⟨[]⟩ "data" (some "")).map (fun r => r.warnings) =
      Except.ok [] ∧
    (collectSchemaReport ⟨[], []⟩ ⟨[]⟩ "data" (some "")).map (fun r => r.fieldChecks) =
      Except.ok [] := by
  exact ⟨rfl, rfl, rfl⟩

/-- C9 (as amended). For every explicit **non-empty** schema name missing
from the catalog, `collect_schema_report` does not raise: it returns a report
with match score 0, no field checks, and the "requested but not available"
warning; `get_schema_spec` on the same unconfigured name (absent from the
recorded parse failures too) raises instead. -/
theorem unconfigured_schema_report (ci : CatalogInfo) (df : DataFrame) (label s : String)
    (hs : s ≠ "") (hlook : catalogLookup ci.schemas s = none) :
    (∃ r, collectSchemaReport ci df label (some s) = Except.ok r ∧
      r.schemaMatchScore = 0 ∧ r.fieldChecks = [] ∧
      schemaUnavailableWarnMsg s ∈ r.warnings) ∧
    (ci.errors.find? (fun e => e.1 = s) = none →
      ∃ msg, getSchemaSpec ci s = Except.error msg) := by
  have hrep : collectSchemaReport ci df label (some s) =
      Except.ok (reportWithoutSpec df label (some s) 0
        (ci.errors.map fun e => catalogErrWarnMsg e.1 e.2) [schemaUnavailableWarnMsg s]) := by
    simp only [collectSchemaReport]
    rw [hlook]
    simp only
    rw [if_neg hs, hlook]
  constructor
  · refine ⟨_, hrep, rfl, rfl, ?_⟩
    show schemaUnavailableWarnMsg s ∈
      (ci.errors.map fun e => catalogErrWarnMsg e.1 e.2) ++ [schemaUnavailableWarnMsg s] ++
        (structuralInfo df).modelYearWarnings
    simp
  · intro herrs
    unfold getSchemaSpec
    rw [herrs, hlook]
    exact ⟨_, rfl⟩

/-- C9 (witness): the amended statement instantiated at the one-schema
catalog, the empty dataset and the unconfigured name `"recalls"`. -/
theorem unconfigured_schema_report_witness :
    (∃ r, collectSchemaReport witnessCatalogInfo witnessEmptyDf "data" (some "recalls") =
        Except.ok r ∧
      r.schemaMatchScore = 0 ∧ r.fieldChecks = [] ∧
      schemaUnavailableWarnMsg "recalls" ∈ r.warnings) ∧
    (witnessCatalogInfo.errors.find? (fun e => e.1 = "recalls") = none →
      ∃ msg, getSchemaSpec witnessCatalogInfo "recalls" = Except.error msg) :=
  unconfigured_schema_report witnessCatalogInfo witnessEmptyDf "data" "recalls"
    (by decide) rfl

/-! ## C2: the report builder always returns a report -/

theorem mapExcept_ok {α β ε : Type} (f : α → Except ε β) :
    ∀ (l : List α), (∀ x ∈ l, ∃ y, f x = Except.ok y) →
      ∃ ys, mapExcept f l = Except.ok ys := by
  intro l
  induction l with
  | nil => intro _; exact ⟨[], rfl⟩
  | cons x xs ih =>
    intro h
    obtain ⟨y, hy⟩ := h x (List.mem_cons_self x xs)
    obtain ⟨ys, hys⟩ := ih fun w hw => h w (List.mem_cons_of_mem _ hw)
    refine ⟨y :: ys, ?_⟩
    simp only [mapExcept]
    rw [hy, exceptBind_ok, hys, exceptBind_ok]

theorem fieldLookupE_ok (spec : SchemaSpec) (name : String)
    (h : name ∈ spec.expectedColumns) : ∃ f, fieldLookupE spec name = Except.ok f := by
  obtain ⟨f, hf, hfname⟩ := List.mem_map.mp h
  have hsome : (spec.fields.reverse.find? fun g => g.name = name).isSome :=
    List.find?_isSome.mpr ⟨f, List.mem_reverse.mpr hf, by simp [hfname]⟩
  obtain ⟨g, hg⟩ := Option.isSome_iff_exists.mp hsome
  refine ⟨g, ?_⟩
  unfold fieldLookupE SchemaSpec.fieldLookup
  rw [hg]

theorem seriesLookup_ok (df : DataFrame) (name : String)
    (h : name ∈ df.columnNames) : ∃ se, seriesLookup df name = Except.ok se := by
  obtain ⟨c, hc, hcname⟩ := List.mem_map.mp h
  have hsome : (df.cols.find? fun e => e.1 = name).isSome :=
    List.find?_isSome.mpr ⟨c, hc, by simp [hcname]⟩
  obtain ⟨e, he⟩ := Option.isSome_iff_exists.mp hsome
  refine ⟨e.2, ?_⟩
  unfold seriesLookup
  rw [he]

theorem columnOutcomes_ok (s : String) (spec : SchemaSpec) (df : DataFrame) :
    ∃ outcomes, columnOutcomes s spec df
      (spec.expectedColumns.filter fun c => df.columnNames.contains c) =
        Except.ok outcomes := by
  apply mapExcept_ok
  intro name hname
  have hmem := List.mem_filter.mp hname
  obtain ⟨f, hf⟩ := fieldLookupE_ok spec name hmem.1
  obtain ⟨se, hse⟩ := seriesLookup_ok df name (by simpa using hmem.2)
  refine ⟨checkColumn s name f se, ?_⟩
  simp only [columnStep]
  rw [hf, exceptBind_ok, hse, exceptBind_ok]

/-- C2. For every dataset, dataset label and optional schema name,
`collect_schema_report` completes and returns a report: the only places the
Python code could raise inside the builder are the `field_map[column_name]`
and `df[column_name]` lookups of the per-column loop, and both provably
succeed for every present expected column, so the embedded builder never
reaches its `Except.error` — field-level anomalies only ever land in the
returned report's warnings and errors lists. -/
theorem collectSchemaReport_total (ci : CatalogInfo) (df : DataFrame) (label : String)
    (sn : Option String) : ∃ r, collectSchemaReport ci df label sn = Except.ok r := by
  have hspec : ∀ (s : String) (spec : SchemaSpec),
      ∃ r, (columnOutcomes s spec df
          (spec.expectedColumns.filter fun c => df.columnNames.contains c) >>=
        fun outcomes => Except.ok (reportWithSpec df label s spec
          (schemaScore df.columnNames spec)
          (ci.errors.map fun e => catalogErrWarnMsg e.1 e.2) outcomes)) = Except.ok r := by
    intro s spec
    obtain ⟨outcomes, ho⟩ := columnOutcomes_ok s spec df
    rw [ho, exceptBind_ok]
    exact ⟨_, rfl⟩
  rcases sn with _ | s
  · simp only [collectSchemaReport]
    cases hdet : (detectSchemaName ci.schemas df.columnNames).1 with
    | none => exact ⟨_, rfl⟩
    | some s =>
      simp only
      by_cases hs : s = ""
      · rw [if_pos hs]; exact ⟨_, rfl⟩
      · rw [if_neg hs]
        cases hlook : catalogLookup ci.schemas s with
        | none => exact ⟨_, rfl⟩
        | some spec =>
          simp only
          obtain ⟨outcomes, ho⟩ := columnOutcomes_ok s spec df
          rw [ho, exceptBind_ok]
          exact ⟨_, rfl⟩
  · simp only [collectSchemaReport]
    cases hlook : catalogLookup ci.schemas s with
    | none =>
      simp only
      by_cases hs : s = ""
      · rw [if_pos hs]; exact ⟨_, rfl⟩
      · rw [if_neg hs, hlook]; exact ⟨_, rfl⟩
    | some spec =>
      simp only
      by_cases hs : s = ""
      · rw [if_pos hs]; exact ⟨_, rfl⟩
      · rw [if_neg hs, hlook]
        simp only
        obtain ⟨outcomes, ho⟩ := columnOutcomes_ok s spec df
        rw [ho, exceptBind_ok]
        exact ⟨_, rfl⟩

/-! ## C6: classification of violations into errors and warnings -/

theorem structuralInfo_modelYear_warn (df : DataFrame) (mc : String) (k : Nat)
    (hc : (structuralInfo df).modelYearColumnFound = some mc)
    (hk : (structuralInfo df).modelYearOutOfRangeCount = some k) (hpos : k > 0) :
    modelYearWarnMsg mc k ∈ (structuralInfo df).modelYearWarnings := by
  simp only [structuralInfo] at hc hk ⊢
  cases hfind : findModelYearColumn df with
  | none => rw [hfind] at hc; simp at hc
  | some c =>
    rw [hfind] at hc hk
    simp only at hc hk ⊢
    cases hcol : df.cols.find? fun e => e.1 = c with
    | none => rw [hcol] at hk; simp at hk
    | some e =>
      rw [hcol] at hc hk
      simp only [Option.some.injEq] at hc hk
      subst hc
      rw [← hk] at hpos ⊢
      simp [hpos]

theorem mapExcept_mem {α β ε : Type} (f : α → Except ε β) :
    ∀ (l : List α) (ys : List β), mapExcept f l = Except.ok ys →
      ∀ y ∈ ys, ∃ x ∈ l, f x = Except.ok y := by
  intro l
  induction l with
  | nil =>
    intro ys h y hy
    simp only [mapExcept] at h
    rw [← Except.ok.inj h] at hy
    exact absurd hy (List.not_mem_nil y)
  | cons x xs ih =>
    intro ys h y hy
    simp only [mapExcept] at h
    cases hx : f x with
    | error msg => rw [hx, exceptBind_error] at h; exact absurd h (by simp)
    | ok y₀ =>
      rw [hx, exceptBind_ok] at h
      cases hxs : mapExcept f xs with
      | error msg => rw [hxs, exceptBind_error] at h; exact absurd h (by simp)
      | ok ys₀ =>
        rw [hxs, exceptBind_ok] at h
        rw [← Except.ok.inj h] at hy
        rcases List.mem_cons.mp hy with hy | hy
        · exact ⟨x, List.mem_cons_self x xs, hy ▸ hx⟩
        · obtain ⟨w, hw, hfw⟩ := ih ys₀ hxs y hy
          exact ⟨w, List.mem_cons_of_mem _ hw, hfw⟩

theorem columnStep_inv (s : String) (spec : SchemaSpec) (df : DataFrame) (name : String)
    (o : ColumnOutcome) (h : columnStep s spec df name = Except.ok o) :
    ∃ field series, fieldLookupE spec name = Except.ok field ∧
      seriesLookup df name = Except.ok series ∧ o = checkColumn s name field series := by
  simp only [columnStep] at h
  cases hf : fieldLookupE spec name with
  | error msg => rw [hf, exceptBind_error] at h; exact absurd h (by simp)
  | ok field =>
    rw [hf, exceptBind_ok] at h
    cases hs : seriesLookup df name with
    | error msg => rw [hs, exceptBind_error] at h; exact absurd h (by simp)
    | ok series =>
      rw [hs, exceptBind_ok] at h
      exact ⟨field, series, rfl, rfl, (Except.ok.inj h).symm⟩

theorem collect_ok_inv (ci : CatalogInfo) (df : DataFrame) (label : String)
    (sn : Option String) (r : Report) (h : collectSchemaReport ci df label sn = Except.ok r) :
    (∃ detected matchScore tailWarn, r = reportWithoutSpec df label detected matchScore
        (ci.errors.map fun e => catalogErrWarnMsg e.1 e.2) tailWarn) ∨
    ∃ s spec matchScore outcomes,
      columnOutcomes s spec df
        (spec.expectedColumns.filter fun c => df.columnNames.contains c) = Except.ok outcomes ∧
      r = reportWithSpec df label s spec matchScore
        (ci.errors.map fun e => catalogErrWarnMsg e.1 e.2) outcomes := by
  have hbind : ∀ (s : String) (spec : SchemaSpec) (matchScore : ℚ),
      (columnOutcomes s spec df
          (spec.expectedColumns.filter fun c => df.columnNames.contains c) >>=
        fun outcomes => Except.ok (reportWithSpec df label s spec matchScore
          (ci.errors.map fun e => catalogErrWarnMsg e.1 e.2) outcomes)) = Except.ok r →
      ∃ s' spec' matchScore' outcomes,
        columnOutcomes s' spec' df
          (spec'.expectedColumns.filter fun c => df.columnNames.contains c) =
            Except.ok outcomes ∧
        r = reportWithSpec df label s' spec' matchScore'
          (ci.errors.map fun e => catalogErrWarnMsg e.1 e.2) outcomes := by
    intro s spec matchScore hb
    cases ho : columnOutcomes s spec df
        (spec.expectedColumns.filter fun c => df.columnNames.contains c) with
    | error msg => rw [ho, exceptBind_error] at hb; exact absurd hb (by simp)
    | ok outcomes =>
      rw [ho, exceptBind_ok] at hb
      exact ⟨s, spec, matchScore, outcomes, ho, (Except.ok.inj hb).symm⟩
  rcases sn with _ | s
  · simp only [collectSchemaReport] at h
    cases hdet : (detectSchemaName ci.schemas df.columnNames).1 with
    | none =>
      rw [hdet] at h
      exact Or.inl ⟨none, _, _, (Except.ok.inj h).symm⟩
    | some s =>
      rw [hdet] at h
      simp only at h
      by_cases hs : s = ""
      · rw [if_pos hs] at h
        exact Or.inl ⟨some s, _, _, (Except.ok.inj h).symm⟩
      · rw [if_neg hs] at h
        cases hlook : catalogLookup ci.schemas s with
        | none =>
          rw [hlook] at h
          exact Or.inl ⟨some s, _, _, (Except.ok.inj h).symm⟩
        | some spec =>
          rw [hlook] at h
          simp only at h
          exact Or.inr (hbind s spec _ h)
  · simp only [collectSchemaReport] at h
    cases hlook : catalogLookup ci.schemas s with
    | none =>
      rw [hlook] at h
      simp only at h
      by_cases hs : s = ""
      · rw [if_pos hs] at h
        exact Or.inl ⟨some s, _, _, (Except.ok.inj h).symm⟩
      · rw [if_neg hs, hlook] at h
        exact Or.inl ⟨some s, _, _, (Except.ok.inj h).symm⟩
    | some spec =>
      rw [hlook] at h
      simp only at h
      by_cases hs : s = ""
      · rw [if_pos hs] at h
        exact Or.inl ⟨some s, _, _, (Except.ok.inj h).symm⟩
      · rw [if_neg hs, hlook] at h
        simp only at h
        exact Or.inr (hbind s spec _ h)

theorem checkColumn_messages (s name : String) (field : FieldSpec) (series : Series) :
    (∀ nr, (checkColumn s name field series).colReport.numeric = some nr →
      nr.nonNumericCount > 0 →
      nonNumericErrMsg name nr.nonNumericCount ∈ (checkColumn s name field series).errors) ∧
    (∀ nr, (checkColumn s name field series).colReport.numeric = some nr →
      nr.nonIntegerCount > 0 →
      nonIntegerWarnMsg name nr.nonIntegerCount ∈ (checkColumn s name field series).warnings) ∧
    (∀ nr, (checkColumn s name field series).colReport.numeric = some nr →
      nr.digitsOverflowCount > 0 →
      digitsOverflowWarnMsg name nr.digitsOverflowCount field.size ∈
        (checkColumn s name field series).warnings) ∧
    (∀ dr, (checkColumn s name field series).colReport.date = some dr →
      dr.invalidDateCount > 0 →
      invalidDateErrMsg name dr.invalidDateCount ∈ (checkColumn s name field series).errors) ∧
    (∀ dr, (checkColumn s name field series).colReport.date = some dr →
      dr.placeholderZeroCount > 0 →
      placeholderWarnMsg name dr.placeholderZeroCount ∈ (checkColumn s name field series).warnings) ∧
    (∀ cr, (checkColumn s name field series).colReport.charLength = some cr →
      cr.tooLongCount > 0 →
      (schemaLengthOverride s name).getD field.size = field.size →
      charErrMsg name cr.tooLongCount field.size ∈ (checkColumn s name field series).errors) ∧
    (∀ cr, (checkColumn s name field series).colReport.charLength = some cr →
      cr.tooLongCount > 0 →
      (schemaLengthOverride s name).getD field.size ≠ field.size →
      charLegacyWarnMsg name cr.tooLongCount field.size
        ((schemaLengthOverride s name).getD field.size) ∈
        (checkColumn s name field series).warnings) ∧
    (∀ er, (checkColumn s name field series).colReport.enum = some er →
      er.invalidValueCount > 0 →
      enumWarnMsg name er.invalidValueCount ∈ (checkColumn s name field series).warnings) := by
  refine ⟨?_, ?_, ?_, ?_, ?_, ?_, ?_, ?_⟩
  · intro nr hnr hpos
    by_cases hty : field.type = "NUMBER"
    · simp [checkColumn, hty] at hnr ⊢
      subst hnr
      simp [hpos]
    · simp [checkColumn, hty] at hnr
  · intro nr hnr hpos
    by_cases hty : field.type = "NUMBER"
    · simp [checkColumn, hty] at hnr ⊢
      subst hnr
      simp [hpos]
    · simp [checkColumn, hty] at hnr
  · intro nr hnr hpos
    by_cases hty : field.type = "NUMBER"
    · simp [checkColumn, hty] at hnr ⊢
      subst hnr
      simp [hpos]
    · simp [checkColumn, hty] at hnr
  · intro dr hdr hpos
    by_cases hdt : field.isDate
    · simp [checkColumn, hdt] at hdr ⊢
      subst hdr
      simp [hpos]
    · simp [checkColumn, hdt] at hdr
  · intro dr hdr hpos
    by_cases hdt : field.isDate
    · simp [checkColumn, hdt] at hdr ⊢
      subst hdr
      simp [hpos]
    · simp [checkColumn, hdt] at hdr
  · intro cr hcr hpos hover
    by_cases hty : field.type = "CHAR"
    · simp [checkColumn, hty, hover] at hcr ⊢
      subst hcr
      simp [hpos]
    · simp [checkColumn, hty] at hcr
  · intro cr hcr hpos hover
    by_cases hty : field.type = "CHAR"
    · simp [checkColumn, hty] at hcr ⊢
      subst hcr
      simp [hpos, hover]
    · simp [checkColumn, hty] at hcr
  · intro er her hpos
    by_cases hty : field.type = "CHAR"
    · simp [checkColumn, hty] at her ⊢
      subst her
      simp [hpos]
    · simp [checkColumn, hty] at her

/-- C6. In every report the builder returns, each missing-required-column
violation, non-numeric count, invalid-date count and character-length
overflow whose allowed maximum is the documented size (no effective legacy
override) appends its message to the errors list, while non-integer values,
digit overflow, placeholder dates, length overflow under an effective legacy
override (allowed maximum differing from the documented size), enum
mismatches, unexpected extra columns, column-order mismatch and out-of-range
model years append their messages to the warnings list. -/
theorem report_message_classification (ci : CatalogInfo) (df : DataFrame) (label : String)
    (sn : Option String) (r : Report)
    (h : collectSchemaReport ci df label sn = Except.ok r) :
    (∀ s, r.schemaName = some s → r.missingColumns ≠ [] →
      missingRequiredMsg s r.missingColumns ∈ r.errors) ∧
    (∀ c cr nr, (c, cr) ∈ r.fieldChecks → cr.numeric = some nr → nr.nonNumericCount > 0 →
      nonNumericErrMsg c nr.nonNumericCount ∈ r.errors) ∧
    (∀ c cr dr, (c, cr) ∈ r.fieldChecks → cr.date = some dr → dr.invalidDateCount > 0 →
      invalidDateErrMsg c dr.invalidDateCount ∈ r.errors) ∧
    (∀ s c cr clr, r.schemaName = some s → (c, cr) ∈ r.fieldChecks →
      cr.charLength = some clr → clr.tooLongCount > 0 →
      (schemaLengthOverride s c).getD cr.size = cr.size →
      charErrMsg c clr.tooLongCount cr.size ∈ r.errors) ∧
    (∀ c cr nr, (c, cr) ∈ r.fieldChecks → cr.numeric = some nr → nr.nonIntegerCount > 0 →
      nonIntegerWarnMsg c nr.nonIntegerCount ∈ r.warnings) ∧
    (∀ c cr nr, (c, cr) ∈ r.fieldChecks → cr.numeric = some nr → nr.digitsOverflowCount > 0 →
      digitsOverflowWarnMsg c nr.digitsOverflowCount cr.size ∈ r.warnings) ∧
    (∀ c cr dr, (c, cr) ∈ r.fieldChecks → cr.date = some dr → dr.placeholderZeroCount > 0 →
      placeholderWarnMsg c dr.placeholderZeroCount ∈ r.warnings) ∧
    (∀ s c cr clr, r.schemaName = some s → (c, cr) ∈ r.fieldChecks →
      cr.charLength = some clr → clr.tooLongCount > 0 →
      (schemaLengthOverride s c).getD cr.size ≠ cr.size →
      charLegacyWarnMsg c clr.tooLongCount cr.size ((schemaLengthOverride s c).getD cr.size) ∈
        r.warnings) ∧
    (∀ c cr er, (c, cr) ∈ r.fieldChecks → cr.enum = some er → er.invalidValueCount > 0 →
      enumWarnMsg c er.invalidValueCount ∈ r.warnings) ∧
    (r.unexpectedExtraColumns ≠ [] →
      unexpectedExtraMsg r.unexpectedExtraColumns ∈ r.warnings) ∧
    (r.columnOrderMatchesExpected = some false → orderMsg ∈ r.warnings) ∧
    (∀ mc k, r.modelYearColumnFound = some mc → r.modelYearOutOfRangeCount = some k → k > 0 →
      modelYearWarnMsg mc k ∈ r.warnings) := by
  rcases collect_ok_inv ci df label sn r h with ⟨d, ms, tw, hr⟩ |
    ⟨s, spec, ms, outcomes, ho, hr⟩
  · subst hr
    refine ⟨?_, ?_, ?_, ?_, ?_, ?_, ?_, ?_, ?_, ?_, ?_, ?_⟩
    · intro _ _ hne; exact absurd rfl hne
    · intro c cr nr hmem; exact absurd hmem (by simp [reportWithoutSpec])
    · intro c cr dr hmem; exact absurd hmem (by simp [reportWithoutSpec])
    · intro s c cr clr _ hmem; exact absurd hmem (by simp [reportWithoutSpec])
    · intro c cr nr hmem; exact absurd hmem (by simp [reportWithoutSpec])
    · intro c cr nr hmem; exact absurd hmem (by simp [reportWithoutSpec])
    · intro c cr dr hmem; exact absurd hmem (by simp [reportWithoutSpec])
    · intro s c cr clr _ hmem; exact absurd hmem (by simp [reportWithoutSpec])
    · intro c cr er hmem; exact absurd hmem (by simp [reportWithoutSpec])
    · intro hne; exact absurd rfl hne
    · intro hcontr; exact absurd hcontr (by simp [reportWithoutSpec])
    · intro mc k hmc hk hpos
      show modelYearWarnMsg mc k ∈
        (ci.errors.map fun e => catalogErrWarnMsg e.1 e.2) ++ tw ++
          (structuralInfo df).modelYearWarnings
      have := structuralInfo_modelYear_warn df mc k hmc hk hpos
      simp only [List.mem_append]
      exact Or.inr this
  · subst hr
    unfold columnOutcomes at ho
    have hinv : ∀ c cr, (c, cr) ∈ (reportWithSpec df label s spec ms
        (ci.errors.map fun e => catalogErrWarnMsg e.1 e.2) outcomes).fieldChecks →
        ∃ o ∈ outcomes, ∃ field series,
          o = checkColumn s c field series ∧ o.colReport = cr := by
      intro c cr hmem
      simp only [reportWithSpec] at hmem
      obtain ⟨o, homem, heq⟩ := List.mem_map.mp hmem
      have h1 : o.name = c := congrArg Prod.fst heq
      have h2 : o.colReport = cr := congrArg Prod.snd heq
      obtain ⟨nm, _, hstep⟩ := mapExcept_mem _ _ outcomes ho o homem
      obtain ⟨field, series, _, _, hoeq⟩ := columnStep_inv s spec df nm o hstep
      have hnm : nm = c := by rw [← h1, hoeq]; rfl
      exact ⟨o, homem, field, series, by rw [hoeq, hnm], h2⟩
    have hlift_err : ∀ o ∈ outcomes, ∀ msg, msg ∈ o.errors →
        msg ∈ (reportWithSpec df label s spec ms
          (ci.errors.map fun e => catalogErrWarnMsg e.1 e.2) outcomes).errors := by
      intro o homem msg hmsg
      simp only [reportWithSpec, List.mem_append]
      exact Or.inr (List.mem_flatMap.mpr ⟨o, homem, hmsg⟩)
    have hlift_warn : ∀ o ∈ outcomes, ∀ msg, msg ∈ o.warnings →
        msg ∈ (reportWithSpec df label s spec ms
          (ci.errors.map fun e => catalogErrWarnMsg e.1 e.2) outcomes).warnings := by
      intro o homem msg hmsg
      simp only [reportWithSpec, List.mem_append]
      exact Or.inl (Or.inr (List.mem_flatMap.mpr ⟨o, homem, hmsg⟩))
    have hname : (reportWithSpec df label s spec ms
        (ci.errors.map fun e => catalogErrWarnMsg e.1 e.2) outcomes).schemaName = some s := rfl
    refine ⟨?_, ?_, ?_, ?_, ?_, ?_, ?_, ?_, ?_, ?_, ?_, ?_⟩
    · intro s' hs' hne
      have hss : s' = s := by
        rw [hname] at hs'
        exact (Option.some.inj hs').symm
      subst hss
      simp only [reportWithSpec, List.mem_append] at hne ⊢
      left
      rw [if_neg (by simpa [List.isEmpty_iff] using hne)]
      exact List.mem_singleton_self _
    · intro c cr nr hmem hnum hpos
      obtain ⟨o, homem, field, series, hoeq, hrep⟩ := hinv c cr hmem
      refine hlift_err o homem _ ?_
      rw [hoeq]
      exact (checkColumn_messages s c field series).1 nr
        (by rw [← hoeq, hrep, hnum]) hpos
    · intro c cr dr hmem hdate hpos
      obtain ⟨o, homem, field, series, hoeq, hrep⟩ := hinv c cr hmem
      refine hlift_err o homem _ ?_
      rw [hoeq]
      exact (checkColumn_messages s c field series).2.2.2.1 dr
        (by rw [← hoeq, hrep, hdate]) hpos
    · intro s' c cr clr hs' hmem hchar hpos hover
      have hss : s' = s := by
        rw [hname] at hs'
        exact (Option.some.inj hs').symm
      rw [hss] at hover
      obtain ⟨o, homem, field, series, hoeq, hrep⟩ := hinv c cr hmem
      have hsize : cr.size = field.size := by rw [← hrep, hoeq]; rfl
      rw [hsize] at hover ⊢
      refine hlift_err o homem _ ?_
      rw [hoeq]
      exact (checkColumn_messages s c field series).2.2.2.2.2.1 clr
        (by rw [← hoeq, hrep, hchar]) hpos hover
    · intro c cr nr hmem hnum hpos
      obtain ⟨o, homem, field, series, hoeq, hrep⟩ := hinv c cr hmem
      refine hlift_warn o homem _ ?_
      rw [hoeq]
      exact (checkColumn_messages s c field series).2.1 nr
        (by rw [← hoeq, hrep, hnum]) hpos
    · intro c cr nr hmem hnum hpos
      obtain ⟨o, homem, field, series, hoeq, hrep⟩ := hinv c cr hmem
      have hsize : cr.size = field.size := by rw [← hrep, hoeq]; rfl
      rw [hsize]
      refine hlift_warn o homem _ ?_
      rw [hoeq]
      exact (checkColumn_messages s c field series).2.2.1 nr
        (by rw [← hoeq, hrep, hnum]) hpos
    · intro c cr dr hmem hdate hpos
      obtain ⟨o, homem, field, series, hoeq, hrep⟩ := hinv c cr hmem
      refine hlift_warn o homem _ ?_
      rw [hoeq]
      exact (checkColumn_messages s c field series).2.2.2.2.1 dr
        (by rw [← hoeq, hrep, hdate]) hpos
    · intro s' c cr clr hs' hmem hchar hpos hover
      have hss : s' = s := by
        rw [hname] at hs'
        exact (Option.some.inj hs').symm
      rw [hss] at hover ⊢
      obtain ⟨o, homem, field, series, hoeq, hrep⟩ := hinv c cr hmem
      have hsize : cr.size = field.size := by rw [← hrep, hoeq]; rfl
      rw [hsize] at hover ⊢
      refine hlift_warn o homem _ ?_
      rw [hoeq]
      exact (checkColumn_messages s c field series).2.2.2.2.2.2.1 clr
        (by rw [← hoeq, hrep, hchar]) hpos hover
    · intro c cr er hmem henum hpos
      obtain ⟨o, homem, field, series, hoeq, hrep⟩ := hinv c cr hmem
      refine hlift_warn o homem _ ?_
      rw [hoeq]
      exact (checkColumn_messages s c field series).2.2.2.2.2.2.2 er
        (by rw [← hoeq, hrep, henum]) hpos
    · intro hne
      simp only [reportWithSpec, List.mem_append] at hne ⊢
      left; left; left; right
      rw [if_neg (by simpa [List.isEmpty_iff] using hne)]
      exact List.mem_singleton_self _
    · intro hcontr
      simp only [reportWithSpec, Option.some.injEq] at hcontr
      simp only [reportWithSpec, List.mem_append]
      left; left; right
      rw [if_neg (by rw [hcontr]; exact Bool.false_ne_true)]
      exact List.mem_singleton_self _
    · intro mc k hmc hk hpos
      have := structuralInfo_modelYear_warn df mc k hmc hk hpos
      simp only [reportWithSpec, List.mem_append]
      exact Or.inr this

/-- C6 (witness): the classification instantiated on the sample dataset — one
non-numeric error, one non-integer warning, the unexpected-extra-columns
warning and the model-year warning all land in the stated lists. -/
theorem report_message_classification_witness :
    nonNumericErrMsg "miles" 1 ∈ sampleReport.errors ∧
    nonIntegerWarnMsg "miles" 1 ∈ sampleReport.warnings ∧
    unexpectedExtraMsg sampleReport.unexpectedExtraColumns ∈ sampleReport.warnings ∧
    modelYearWarnMsg "yeartxt" 1 ∈ sampleReport.warnings := by
  have hthm := report_message_classification sampleCatalogInfo sampleDf "sample"
    (some "complaints") sampleReport rfl
  refine ⟨?_, ?_, ?_, ?_⟩
  · exact hthm.2.1 "miles" sampleMilesReport sampleMilesNumeric (by decide) (by decide)
      (by decide)
  · exact hthm.2.2.2.2.1 "miles" sampleMilesReport sampleMilesNumeric (by decide) (by decide)
      (by decide)
  · exact hthm.2.2.2.2.2.2.2.2.2.1 (by decide)
  · exact hthm.2.2.2.2.2.2.2.2.2.2.2 "yeartxt" 1 (by decide) (by decide) (by decide)

end SchemaChecks
